import Mathlib

/-!
# OkapiLib: chassis controller builder, motor velocity controller, timer, average filter,
controller button

A shallow embedding of

* `src/impl/chassis/controller/chassisControllerBuilder.cpp`
  (`ChassisControllerBuilder`: the configuration setters, `build`, `buildOdometry`,
  `buildOCCPID`, `buildOCCI`, `buildCCPID`, `buildCCI`, `makeSkidSteerModel`,
  `makeXDriveModel`),
* `src/control/iterative/iterativeMotorVelocityController.cpp`
  (`IterativeMotorVelocityController::step`, `getOutput`),
* `src/timer.cpp` (`Timer`: the constructor and every member function),
* `src/controllerButton.cpp` (`ControllerButton`: the constructor, `isPressed`, `edge`,
  `risingEdge`, `fallingEdge`, `currentlyPressed`),
* `src/impl/filter/velMathFactory.cpp` (`VelMathFactory::create`) with the class template of
  `include/okapi/filter/averageFilter.hpp`,

followed by the theorems about them.

Conventions of the embedding.

* A `std::shared_ptr<T>` or `std::unique_ptr<T>` is an `Option`; `none` is the null pointer.
  Moving out of a `unique_ptr` leaves `none` behind.
* A C++ `double` that is only stored and handed on is a rational number.
* A `uint32_t` is a natural number; its subtraction is `sub32`, the difference modulo 2^32.
  The values `pros::millis()` returns are arguments of the functions that read the clock.
* A member function that can throw `std::runtime_error` returns an `Outcome`: the ordered list
  of observable events of the call, `Except.error msg` for a throw with `what() = msg` or
  `Except.ok v` for a normal return, and the builder as the call leaves it.
-/

namespace okapi

/-! ## Collaborator types -/

/-- A `std::shared_ptr<Logger>`. -/
abbrev LoggerPtr := Option Nat

/-- A `std::unique_ptr<Filter>`. -/
abbrev FilterPtr := Option Nat

/-- A motor object (`AbstractMotor`), identified by a number. -/
structure AbstractMotor where
  id : Nat
  deriving DecidableEq

/-- A `std::shared_ptr<AbstractMotor>`. -/
abbrev MotorPtr := Option AbstractMotor

/-- A rotary sensor object: the integrated encoder of a motor (what `getEncoder()` returns) or a
sensor constructed by the caller. -/
inductive ContinuousRotarySensor where
  | integratedEncoder (motor : AbstractMotor)
  | external (id : Nat)
  deriving DecidableEq

/-- A `std::shared_ptr<ContinuousRotarySensor>`. -/
abbrev SensorPtr := Option ContinuousRotarySensor

/-- The call `imotor->getEncoder()`. -/
def AbstractMotor.getEncoder (m : AbstractMotor) : SensorPtr :=
  some (ContinuousRotarySensor.integratedEncoder m)

/-- An enumerator of `AbstractMotor::gearset`, represented by its underlying integer (the
enumerators themselves are declared in a header outside the sources at hand). -/
structure Gearset where
  underlying : Int
  deriving DecidableEq

/-- The call `toUnderlyingType(g)` on a gearset enumerator: its rated velocity. -/
def toUnderlyingType (g : Gearset) : Int := g.underlying

/-- The pair `AbstractMotor::GearsetRatioPair`: internal gearset and external gear factor. -/
structure GearsetRatioPair where
  internalGearset : Gearset
  external : ℚ
  deriving DecidableEq

/-- The value type `ChassisScales`: wheel diameter, wheel track, straight and turn conversion. -/
structure ChassisScales where
  wheelDiameter : ℚ
  wheelTrack : ℚ
  straight : ℚ
  turn : ℚ
  deriving DecidableEq

/-- The value type `IterativePosPIDController::Gains`. -/
structure Gains where
  kP : ℚ
  kI : ℚ
  kD : ℚ
  deriving DecidableEq

/-- A `TimeUtilFactory` value, identified by a number. -/
structure TimeUtilFactory where
  id : Nat
  deriving DecidableEq

/-- A `TimeUtil`: made by the static `TimeUtilFactory::create()` or by `create()` called on a
factory object held by the builder. -/
inductive TimeUtil where
  | static
  | ofFactory (f : TimeUtilFactory)
  deriving DecidableEq

/-- The call `f.create()` on a factory object. -/
def TimeUtilFactory.create (f : TimeUtilFactory) : TimeUtil := TimeUtil.ofFactory f

/-! ## Objects the builder constructs -/

/-- What a `std::shared_ptr<SkidSteerModel>` made by `makeSkidSteerModel` points to: a
`SkidSteerModel` or its subclass `ThreeEncoderSkidSteerModel`, with the constructor arguments. -/
inductive SkidSteerModel where
  | skidSteerModel (left right : MotorPtr) (leftEnc rightEnc : SensorPtr)
      (maxVelocity maxVoltage : ℚ)
  | threeEncoderSkidSteerModel (left right : MotorPtr) (leftEnc middleEnc rightEnc : SensorPtr)
      (maxVelocity maxVoltage : ℚ)
  deriving DecidableEq

/-- An `XDriveModel` with its constructor arguments. -/
structure XDriveModel where
  topLeft : MotorPtr
  topRight : MotorPtr
  bottomRight : MotorPtr
  bottomLeft : MotorPtr
  leftEnc : SensorPtr
  rightEnc : SensorPtr
  maxVelocity : ℚ
  maxVoltage : ℚ
  deriving DecidableEq

/-- The kinematics model of a controller that may have either layout. -/
inductive ChassisModel where
  | skidSteer (m : SkidSteerModel)
  | xDrive (m : XDriveModel)
  deriving DecidableEq

/-- What a `std::unique_ptr<Odometry>` points to: an `Odometry`, a `ThreeEncoderOdometry`, both
with their constructor arguments, or an object of some other subclass written by the caller. -/
inductive Odometry where
  | odometry (timeUtil : TimeUtil) (model : SkidSteerModel) (scales : ChassisScales)
      (wheelVelDelta : ℚ) (logger : LoggerPtr)
  | threeEncoderOdometry (timeUtil : TimeUtil) (model : SkidSteerModel) (scales : ChassisScales)
      (wheelVelDelta : ℚ) (logger : LoggerPtr)
  | other (id : Nat) (model : SkidSteerModel)
  deriving DecidableEq

/-- An `IterativePosPIDController` with its constructor arguments. -/
structure IterativePosPIDController where
  gains : Gains
  timeUtil : TimeUtil
  derivativeFilter : FilterPtr
  logger : LoggerPtr
  deriving DecidableEq

/-- An `AsyncPosIntegratedController` with its constructor arguments. -/
structure AsyncPosIntegratedController where
  motor : MotorPtr
  gearset : GearsetRatioPair
  maxVelocity : Int
  timeUtil : TimeUtil
  logger : LoggerPtr
  deriving DecidableEq

/-- The object `build()` returns a pointer to: one of the four controller classes, with the
arguments its constructor was called with. -/
inductive ChassisController where
  | odomChassisControllerPID (timeUtil : TimeUtil) (model : SkidSteerModel)
      (odometry : Option Odometry)
      (distance angle turn : IterativePosPIDController)
      (gearset : GearsetRatioPair) (scales : ChassisScales)
      (moveThreshold turnThreshold : ℚ) (logger : LoggerPtr)
  | odomChassisControllerIntegrated (timeUtil : TimeUtil) (model : SkidSteerModel)
      (odometry : Option Odometry)
      (left right : AsyncPosIntegratedController)
      (gearset : GearsetRatioPair) (scales : ChassisScales)
      (moveThreshold turnThreshold : ℚ) (logger : LoggerPtr)
  | chassisControllerPID (timeUtil : TimeUtil) (model : ChassisModel)
      (distance angle turn : IterativePosPIDController)
      (gearset : GearsetRatioPair) (scales : ChassisScales) (logger : LoggerPtr)
  | chassisControllerIntegrated (timeUtil : TimeUtil) (model : ChassisModel)
      (left right : AsyncPosIntegratedController)
      (gearset : GearsetRatioPair) (scales : ChassisScales) (logger : LoggerPtr)
  deriving DecidableEq

/-- The control strategy of a controller: which of the four classes it is. -/
inductive Strategy where
  | odomPID
  | odomIntegrated
  | pid
  | integrated
  deriving DecidableEq

/-- The class of a controller object. -/
def ChassisController.strategy : ChassisController → Strategy
  | .odomChassisControllerPID .. => .odomPID
  | .odomChassisControllerIntegrated .. => .odomIntegrated
  | .chassisControllerPID .. => .pid
  | .chassisControllerIntegrated .. => .integrated

/-- The kinematics model a controller was constructed with. -/
def ChassisController.model : ChassisController → ChassisModel
  | .odomChassisControllerPID _ m .. => .skidSteer m
  | .odomChassisControllerIntegrated _ m .. => .skidSteer m
  | .chassisControllerPID _ m .. => m
  | .chassisControllerIntegrated _ m .. => m

/-- The odometry estimator a controller was constructed with, if it is an odometry controller. -/
def ChassisController.odometry : ChassisController → Option Odometry
  | .odomChassisControllerPID _ _ o .. => o
  | .odomChassisControllerIntegrated _ _ o .. => o
  | .chassisControllerPID .. => none
  | .chassisControllerIntegrated .. => none

/-- The gearset a controller was constructed with. -/
def ChassisController.gearset : ChassisController → GearsetRatioPair
  | .odomChassisControllerPID _ _ _ _ _ _ g .. => g
  | .odomChassisControllerIntegrated _ _ _ _ _ g .. => g
  | .chassisControllerPID _ _ _ _ _ g .. => g
  | .chassisControllerIntegrated _ _ _ _ g .. => g

/-- The max velocity a skid-steer model was constructed with. -/
def SkidSteerModel.maxVelocity : SkidSteerModel → ℚ
  | .skidSteerModel _ _ _ _ v _ => v
  | .threeEncoderSkidSteerModel _ _ _ _ _ v _ => v

/-- The max velocity a kinematics model was constructed with. -/
def ChassisModel.maxVelocity : ChassisModel → ℚ
  | .skidSteer m => m.maxVelocity
  | .xDrive m => m.maxVelocity

/-! ## The builder -/

/-- The member struct `SkidSteerMotors`. -/
structure SkidSteerMotors where
  left : MotorPtr
  right : MotorPtr
  deriving DecidableEq

/-- The member struct `XDriveMotors`. -/
structure XDriveMotors where
  topLeft : MotorPtr
  topRight : MotorPtr
  bottomRight : MotorPtr
  bottomLeft : MotorPtr
  deriving DecidableEq

/-- The data members of `ChassisControllerBuilder`, as the member functions read and write
them. -/
structure ChassisControllerBuilder where
  logger : LoggerPtr
  hasMotors : Bool
  isSkidSteer : Bool
  skidSteerMotors : SkidSteerMotors
  xDriveMotors : XDriveMotors
  sensorsSetByUser : Bool
  leftSensor : SensorPtr
  rightSensor : SensorPtr
  middleSensor : SensorPtr
  hasGains : Bool
  distanceGains : Gains
  turnGains : Gains
  angleGains : Gains
  distanceFilter : FilterPtr
  turnFilter : FilterPtr
  angleFilter : FilterPtr
  controllerTimeUtilFactory : TimeUtilFactory
  hasOdom : Bool
  odometry : Option Odometry
  moveThreshold : ℚ
  turnThreshold : ℚ
  wheelVelDelta : ℚ
  gearset : GearsetRatioPair
  scales : ChassisScales
  maxVelSetByUser : Bool
  maxVelocity : ℚ
  maxVoltage : ℚ
  controllerLogger : LoggerPtr
  deriving DecidableEq

/-- An observable step of a builder call, in the order the source performs them. The arguments
of one constructor call are listed in source order. -/
inductive Event where
  /-- The statement `LOG_ERROR_S(msg)`, which writes to the member `logger`. -/
  | logError (logger : LoggerPtr) (msg : String)
  /-- A kinematics model is constructed (`makeSkidSteerModel`, `makeXDriveModel`). -/
  | makeModel (m : ChassisModel)
  /-- An odometry estimator is constructed (`std::make_unique<Odometry>` or
  `std::make_unique<ThreeEncoderOdometry>`). -/
  | makeOdometry (o : Odometry)
  /-- An `IterativePosPIDController` is constructed. -/
  | makePosPID (c : IterativePosPIDController)
  /-- An `AsyncPosIntegratedController` is constructed. -/
  | makeAsyncPos (c : AsyncPosIntegratedController)
  /-- The chassis controller is constructed (`std::make_shared<...>`). -/
  | makeChassisController (c : ChassisController)
  /-- The statement `out->startThread()`. -/
  | startThread
  deriving DecidableEq

/-- What a call on the builder does: its events, its result (a thrown `std::runtime_error` is
`Except.error` of its message) and the builder afterwards. -/
structure Outcome (α : Type) where
  events : List Event
  result : Except String α
  builder : ChassisControllerBuilder

namespace ChassisControllerBuilder

/-- The overload `withMotors(ileft, iright)` on shared pointers, which the `Motor` and
`MotorGroup` overloads call with `std::make_shared` of their arguments. The pointers are
dereferenced (`ileft->getEncoder()`), so the arguments are motor objects, not null. -/
def withMotors (b : ChassisControllerBuilder) (ileft iright : AbstractMotor) :
    ChassisControllerBuilder :=
  let b1 := { b with hasMotors := true, isSkidSteer := true,
                     skidSteerMotors := { left := some ileft, right := some iright } }
  if !b1.sensorsSetByUser then
    { b1 with leftSensor := ileft.getEncoder, rightSensor := iright.getEncoder }
  else b1

/-- The overload `withMotors(itopLeft, itopRight, ibottomRight, ibottomLeft)` on shared
pointers; the arguments are motor objects, as in the two-motor overload. -/
def withMotors4 (b : ChassisControllerBuilder)
    (itopLeft itopRight ibottomRight ibottomLeft : AbstractMotor) : ChassisControllerBuilder :=
  let b1 := { b with hasMotors := true, isSkidSteer := false,
                     xDriveMotors := { topLeft := some itopLeft, topRight := some itopRight,
                                       bottomRight := some ibottomRight,
                                       bottomLeft := some ibottomLeft } }
  if !b1.sensorsSetByUser then
    { b1 with leftSensor := itopLeft.getEncoder, rightSensor := itopRight.getEncoder }
  else b1

/-- The overload `withSensors(ileft, iright)`. -/
def withSensors (b : ChassisControllerBuilder) (ileft iright : SensorPtr) :
    ChassisControllerBuilder :=
  { b with sensorsSetByUser := true, leftSensor := ileft, rightSensor := iright }

/-- The overload `withSensors(ileft, iright, imiddle)`. -/
def withSensors3 (b : ChassisControllerBuilder) (ileft iright imiddle : SensorPtr) :
    ChassisControllerBuilder :=
  { b with sensorsSetByUser := true, leftSensor := ileft, rightSensor := iright,
           middleSensor := imiddle }

/-- The overload `withGains(idistanceGains, iturnGains, iangleGains)`. -/
def withGains3 (b : ChassisControllerBuilder) (idistanceGains iturnGains iangleGains : Gains) :
    ChassisControllerBuilder :=
  { b with hasGains := true, distanceGains := idistanceGains, turnGains := iturnGains,
           angleGains := iangleGains }

/-- The overload `withGains(idistanceGains, iturnGains)`. -/
def withGains (b : ChassisControllerBuilder) (idistanceGains iturnGains : Gains) :
    ChassisControllerBuilder :=
  b.withGains3 idistanceGains iturnGains iturnGains

/-- The setter `withDerivativeFilters`. -/
def withDerivativeFilters (b : ChassisControllerBuilder)
    (idistanceFilter iturnFilter iangleFilter : FilterPtr) : ChassisControllerBuilder :=
  { b with distanceFilter := idistanceFilter, turnFilter := iturnFilter,
           angleFilter := iangleFilter }

/-- The setter `withTimeUtilFactory`. -/
def withTimeUtilFactory (b : ChassisControllerBuilder) (itimeUtilFactory : TimeUtilFactory) :
    ChassisControllerBuilder :=
  { b with controllerTimeUtilFactory := itimeUtilFactory }

/-- The overload `withOdometry(imoveThreshold, iturnThreshold, iwheelVelDelta)`. -/
def withOdometry (b : ChassisControllerBuilder) (imoveThreshold iturnThreshold iwheelVelDelta : ℚ) :
    ChassisControllerBuilder :=
  { b with hasOdom := true, odometry := none, moveThreshold := imoveThreshold,
           turnThreshold := iturnThreshold, wheelVelDelta := iwheelVelDelta }

/-- The message of the error `withOdometry(iodometry, ...)` throws. -/
def nullOdometryMsg : String := "ChassisControllerBuilder: Odometry cannot be null."

/-- The overload `withOdometry(iodometry, imoveThreshold, iturnThreshold)`, which throws on a
null estimator. -/
def withOdometryCustom (b : ChassisControllerBuilder) (iodometry : Option Odometry)
    (imoveThreshold iturnThreshold : ℚ) : Outcome Unit :=
  if iodometry = none then
    { events := [Event.logError b.logger nullOdometryMsg],
      result := Except.error nullOdometryMsg,
      builder := b }
  else
    { events := [],
      result := Except.ok (),
      builder := { b with hasOdom := true, odometry := iodometry,
                          moveThreshold := imoveThreshold, turnThreshold := iturnThreshold } }

/-- The setter `withGearset`. -/
def withGearset (b : ChassisControllerBuilder) (igearset : GearsetRatioPair) :
    ChassisControllerBuilder :=
  let b1 := { b with gearset := igearset }
  if !b1.maxVelSetByUser then
    { b1 with maxVelocity := (toUnderlyingType igearset.internalGearset : ℚ) }
  else b1

/-- The setter `withDimensions`. -/
def withDimensions (b : ChassisControllerBuilder) (iscales : ChassisScales) :
    ChassisControllerBuilder :=
  { b with scales := iscales }

/-- The setter `withMaxVelocity`. -/
def withMaxVelocity (b : ChassisControllerBuilder) (imaxVelocity : ℚ) :
    ChassisControllerBuilder :=
  { b with maxVelSetByUser := true, maxVelocity := imaxVelocity }

/-- The setter `withMaxVoltage`. -/
def withMaxVoltage (b : ChassisControllerBuilder) (imaxVoltage : ℚ) :
    ChassisControllerBuilder :=
  { b with maxVoltage := imaxVoltage }

/-- The setter `withLogger`. -/
def withLogger (b : ChassisControllerBuilder) (ilogger : LoggerPtr) :
    ChassisControllerBuilder :=
  { b with controllerLogger := ilogger }

/-- The message of the error `build` and `buildOdometry` throw when no motors were given. -/
def noMotorsMsg : String := "ChassisControllerBuilder: No motors given."

/-- The message of the error `buildOdometry` throws when odometry was not requested. -/
def noOdometryMsg : String := "ChassisControllerBuilder: No odometry information given."

/-- The message of the error `buildOCCPID` and `buildOCCI` throw for an X-drive layout. -/
def skidSteerOnlyMsg : String :=
  "ChassisControllerBuilder: Odometry only support with skid-steer layout."

/-- The function `makeSkidSteerModel`. -/
def makeSkidSteerModel (b : ChassisControllerBuilder) : SkidSteerModel :=
  if b.middleSensor ≠ none then
    SkidSteerModel.threeEncoderSkidSteerModel b.skidSteerMotors.left b.skidSteerMotors.right
      b.leftSensor b.middleSensor b.rightSensor b.maxVelocity b.maxVoltage
  else
    SkidSteerModel.skidSteerModel b.skidSteerMotors.left b.skidSteerMotors.right
      b.leftSensor b.rightSensor b.maxVelocity b.maxVoltage

/-- The function `makeXDriveModel`. -/
def makeXDriveModel (b : ChassisControllerBuilder) : XDriveModel :=
  { topLeft := b.xDriveMotors.topLeft, topRight := b.xDriveMotors.topRight,
    bottomRight := b.xDriveMotors.bottomRight, bottomLeft := b.xDriveMotors.bottomLeft,
    leftEnc := b.leftSensor, rightEnc := b.rightSensor,
    maxVelocity := b.maxVelocity, maxVoltage := b.maxVoltage }

/-- The estimator `buildOCCPID` and `buildOCCI` construct over `model` when the member
`odometry` is null: `Odometry` without a middle sensor, `ThreeEncoderOdometry` with one. -/
def defaultOdometry (b : ChassisControllerBuilder) (model : SkidSteerModel) : Odometry :=
  if b.middleSensor = none then
    Odometry.odometry TimeUtil.static model b.scales b.wheelVelDelta b.controllerLogger
  else
    Odometry.threeEncoderOdometry TimeUtil.static model b.scales b.wheelVelDelta
      b.controllerLogger

/-- The three `IterativePosPIDController` objects of a PID build, in source order: distance,
angle, turn. Each takes its derivative filter out of the builder. -/
def pidControllers (b : ChassisControllerBuilder) :
    IterativePosPIDController × IterativePosPIDController × IterativePosPIDController :=
  ({ gains := b.distanceGains, timeUtil := b.controllerTimeUtilFactory.create,
     derivativeFilter := b.distanceFilter, logger := b.controllerLogger },
   { gains := b.angleGains, timeUtil := b.controllerTimeUtilFactory.create,
     derivativeFilter := b.angleFilter, logger := b.controllerLogger },
   { gains := b.turnGains, timeUtil := b.controllerTimeUtilFactory.create,
     derivativeFilter := b.turnFilter, logger := b.controllerLogger })

/-- The `AsyncPosIntegratedController` the integrated builds construct over a motor. -/
def asyncController (b : ChassisControllerBuilder) (motor : MotorPtr) :
    AsyncPosIntegratedController :=
  { motor := motor, gearset := b.gearset,
    maxVelocity := toUnderlyingType b.gearset.internalGearset,
    timeUtil := b.controllerTimeUtilFactory.create, logger := b.controllerLogger }

/-- The function `buildOCCPID`. -/
def buildOCCPID (b : ChassisControllerBuilder) : Outcome ChassisController :=
  if b.isSkidSteer then
    let model := b.makeSkidSteerModel
    let made : List Event :=
      if b.odometry = none then [Event.makeOdometry (b.defaultOdometry model)] else []
    let odometry : Option Odometry :=
      if b.odometry = none then some (b.defaultOdometry model) else b.odometry
    let pids := b.pidControllers
    let out := ChassisController.odomChassisControllerPID TimeUtil.static model odometry
      pids.1 pids.2.1 pids.2.2 b.gearset b.scales b.moveThreshold b.turnThreshold
      b.controllerLogger
    { events := [Event.makeModel (ChassisModel.skidSteer model)] ++ made ++
        [Event.makePosPID pids.1, Event.makePosPID pids.2.1, Event.makePosPID pids.2.2,
         Event.makeChassisController out, Event.startThread],
      result := Except.ok out,
      builder := { b with odometry := none, distanceFilter := none, angleFilter := none,
                          turnFilter := none } }
  else
    { events := [Event.logError b.logger skidSteerOnlyMsg],
      result := Except.error skidSteerOnlyMsg,
      builder := b }

/-- The function `buildOCCI`. -/
def buildOCCI (b : ChassisControllerBuilder) : Outcome ChassisController :=
  if b.isSkidSteer then
    let model := b.makeSkidSteerModel
    let made : List Event :=
      if b.odometry = none then [Event.makeOdometry (b.defaultOdometry model)] else []
    let odometry : Option Odometry :=
      if b.odometry = none then some (b.defaultOdometry model) else b.odometry
    let left := b.asyncController b.skidSteerMotors.left
    let right := b.asyncController b.skidSteerMotors.right
    let out := ChassisController.odomChassisControllerIntegrated TimeUtil.static model odometry
      left right b.gearset b.scales b.moveThreshold b.turnThreshold b.controllerLogger
    { events := [Event.makeModel (ChassisModel.skidSteer model)] ++ made ++
        [Event.makeAsyncPos left, Event.makeAsyncPos right, Event.makeChassisController out],
      result := Except.ok out,
      builder := { b with odometry := none } }
  else
    { events := [Event.logError b.logger skidSteerOnlyMsg],
      result := Except.error skidSteerOnlyMsg,
      builder := b }

/-- The function `buildCCPID`. -/
def buildCCPID (b : ChassisControllerBuilder) : Outcome ChassisController :=
  if b.isSkidSteer then
    let model := ChassisModel.skidSteer b.makeSkidSteerModel
    let pids := b.pidControllers
    let out := ChassisController.chassisControllerPID TimeUtil.static model
      pids.1 pids.2.1 pids.2.2 b.gearset b.scales b.controllerLogger
    { events := [Event.makeModel model, Event.makePosPID pids.1, Event.makePosPID pids.2.1,
                 Event.makePosPID pids.2.2, Event.makeChassisController out, Event.startThread],
      result := Except.ok out,
      builder := { b with distanceFilter := none, angleFilter := none, turnFilter := none } }
  else
    let model := ChassisModel.xDrive b.makeXDriveModel
    let pids := b.pidControllers
    let out := ChassisController.chassisControllerPID TimeUtil.static model
      pids.1 pids.2.1 pids.2.2 b.gearset b.scales b.controllerLogger
    { events := [Event.makeModel model, Event.makePosPID pids.1, Event.makePosPID pids.2.1,
                 Event.makePosPID pids.2.2, Event.makeChassisController out, Event.startThread],
      result := Except.ok out,
      builder := { b with distanceFilter := none, angleFilter := none, turnFilter := none } }

/-- The function `buildCCI`. -/
def buildCCI (b : ChassisControllerBuilder) : Outcome ChassisController :=
  if b.isSkidSteer then
    let model := ChassisModel.skidSteer b.makeSkidSteerModel
    let left := b.asyncController b.skidSteerMotors.left
    let right := b.asyncController b.skidSteerMotors.right
    let out := ChassisController.chassisControllerIntegrated TimeUtil.static model
      left right b.gearset b.scales b.controllerLogger
    { events := [Event.makeModel model, Event.makeAsyncPos left, Event.makeAsyncPos right,
                 Event.makeChassisController out],
      result := Except.ok out,
      builder := b }
  else
    let model := ChassisModel.xDrive b.makeXDriveModel
    let left := b.asyncController b.skidSteerMotors.left
    let right := b.asyncController b.skidSteerMotors.right
    let out := ChassisController.chassisControllerIntegrated TimeUtil.static model
      left right b.gearset b.scales b.controllerLogger
    { events := [Event.makeModel model, Event.makeAsyncPos left, Event.makeAsyncPos right,
                 Event.makeChassisController out],
      result := Except.ok out,
      builder := b }

/-- The function `build`. -/
def build (b : ChassisControllerBuilder) : Outcome ChassisController :=
  if !b.hasMotors then
    { events := [Event.logError b.logger noMotorsMsg],
      result := Except.error noMotorsMsg,
      builder := b }
  else if b.hasOdom then
    if b.hasGains then b.buildOCCPID else b.buildOCCI
  else
    if b.hasGains then b.buildCCPID else b.buildCCI

/-- The function `buildOdometry`. -/
def buildOdometry (b : ChassisControllerBuilder) : Outcome ChassisController :=
  if !b.hasMotors then
    { events := [Event.logError b.logger noMotorsMsg],
      result := Except.error noMotorsMsg,
      builder := b }
  else if !b.hasOdom then
    { events := [Event.logError b.logger noOdometryMsg],
      result := Except.error noOdometryMsg,
      builder := b }
  else if b.hasGains then b.buildOCCPID else b.buildOCCI

end ChassisControllerBuilder

/-! ## Sequences of configuration calls -/

/-- One call of a configuration setter, with its arguments. -/
inductive Call where
  | withMotors (ileft iright : AbstractMotor)
  | withMotors4 (itopLeft itopRight ibottomRight ibottomLeft : AbstractMotor)
  | withSensors (ileft iright : SensorPtr)
  | withSensors3 (ileft iright imiddle : SensorPtr)
  | withGains (idistanceGains iturnGains : Gains)
  | withGains3 (idistanceGains iturnGains iangleGains : Gains)
  | withDerivativeFilters (idistanceFilter iturnFilter iangleFilter : FilterPtr)
  | withTimeUtilFactory (itimeUtilFactory : TimeUtilFactory)
  | withOdometry (imoveThreshold iturnThreshold iwheelVelDelta : ℚ)
  | withOdometryCustom (iodometry : Option Odometry) (imoveThreshold iturnThreshold : ℚ)
  | withGearset (igearset : GearsetRatioPair)
  | withDimensions (iscales : ChassisScales)
  | withMaxVelocity (imaxVelocity : ℚ)
  | withMaxVoltage (imaxVoltage : ℚ)
  | withLogger (ilogger : LoggerPtr)
  deriving DecidableEq

/-- A setter that returns normally without logging. -/
def Outcome.pure (b : ChassisControllerBuilder) : Outcome Unit :=
  { events := [], result := Except.ok (), builder := b }

/-- The effect of one configuration call on a builder. -/
def Call.run (c : Call) (b : ChassisControllerBuilder) : Outcome Unit :=
  match c with
  | .withMotors l r => Outcome.pure (b.withMotors l r)
  | .withMotors4 tl tr br bl => Outcome.pure (b.withMotors4 tl tr br bl)
  | .withSensors l r => Outcome.pure (b.withSensors l r)
  | .withSensors3 l r m => Outcome.pure (b.withSensors3 l r m)
  | .withGains d t => Outcome.pure (b.withGains d t)
  | .withGains3 d t a => Outcome.pure (b.withGains3 d t a)
  | .withDerivativeFilters d t a => Outcome.pure (b.withDerivativeFilters d t a)
  | .withTimeUtilFactory f => Outcome.pure (b.withTimeUtilFactory f)
  | .withOdometry m t w => Outcome.pure (b.withOdometry m t w)
  | .withOdometryCustom o m t => b.withOdometryCustom o m t
  | .withGearset g => Outcome.pure (b.withGearset g)
  | .withDimensions sc => Outcome.pure (b.withDimensions sc)
  | .withMaxVelocity v => Outcome.pure (b.withMaxVelocity v)
  | .withMaxVoltage v => Outcome.pure (b.withMaxVoltage v)
  | .withLogger l => Outcome.pure (b.withLogger l)

/-- The builder after a sequence of configuration calls made one after the other on the same
builder object; a call that throws leaves the builder as `Call.run` says and the caller goes
on with the next call. -/
def runCalls (b : ChassisControllerBuilder) (calls : List Call) : ChassisControllerBuilder :=
  calls.foldl (fun acc c => (c.run acc).builder) b

/-- Whether a call is one of the `withMotors` overloads. -/
def Call.isWithMotors : Call → Bool
  | .withMotors .. => true
  | .withMotors4 .. => true
  | _ => false

/-- The error-level log entries among the events of a call: logger and text. -/
def errorLogs (events : List Event) : List (LoggerPtr × String) :=
  events.filterMap fun e =>
    match e with
    | .logError l m => some (l, m)
    | _ => none

/-- The constructions among the events of a call: every event that is not a log entry and not
the thread start. -/
def constructions (events : List Event) : List Event :=
  events.filter fun e =>
    match e with
    | .logError .. => false
    | .startThread => false
    | _ => true

/-- Modelled from the spec: the default member initialisers of `ChassisControllerBuilder` are in
a header outside the sources at hand. A builder on which no setter was called has no motors,
no user sensors, no gains, no odometry request and no user max velocity (§4.1); its pointers
are null, its layout flag says skid-steer, its max velocity is the rated velocity of its
gearset (§4.1, step 5), and the remaining values are those given here. -/
def ChassisControllerBuilder.unconfigured (ilogger : LoggerPtr) (gearset : GearsetRatioPair)
    (scales : ChassisScales) (maxVoltage : ℚ) : ChassisControllerBuilder :=
  { logger := ilogger, hasMotors := false, isSkidSteer := true,
    skidSteerMotors := { left := none, right := none },
    xDriveMotors := { topLeft := none, topRight := none, bottomRight := none,
                      bottomLeft := none },
    sensorsSetByUser := false, leftSensor := none, rightSensor := none, middleSensor := none,
    hasGains := false,
    distanceGains := { kP := 0, kI := 0, kD := 0 },
    turnGains := { kP := 0, kI := 0, kD := 0 },
    angleGains := { kP := 0, kI := 0, kD := 0 },
    distanceFilter := none, turnFilter := none, angleFilter := none,
    controllerTimeUtilFactory := { id := 0 },
    hasOdom := false, odometry := none, moveThreshold := 0, turnThreshold := 0,
    wheelVelDelta := 0,
    gearset := gearset, scales := scales,
    maxVelSetByUser := false,
    maxVelocity := (toUnderlyingType gearset.internalGearset : ℚ),
    maxVoltage := maxVoltage,
    controllerLogger := none }

/-- A concrete unconfigured builder: logger 0, a gearset rated 200, unit scales, 12000 mV. -/
def ChassisControllerBuilder.sample : ChassisControllerBuilder :=
  ChassisControllerBuilder.unconfigured (some 0)
    { internalGearset := { underlying := 200 }, external := 1 }
    { wheelDiameter := 1, wheelTrack := 1, straight := 1, turn := 1 } 12000

/-- The odometry estimators constructed during a call, in order. -/
def odometryMade (events : List Event) : List Odometry :=
  events.filterMap fun e =>
    match e with
    | .makeOdometry o => some o
    | _ => none

/-- The kinematics models constructed during a call, in order. -/
def modelsMade (events : List Event) : List ChassisModel :=
  events.filterMap fun e =>
    match e with
    | .makeModel m => some m
    | _ => none

/-- The background threads started so far: how many odometry loops and how many control
loops. -/
structure Threads where
  odometry : Nat
  control : Nat
  deriving DecidableEq

/-- Modelled from the spec: the controller classes (their constructors and `startThread`) are
outside the sources at hand. By §4.1, step 3, an odometry controller has a background odometry
thread and a controller without odometry has none; by §9 the lifecycle of a background thread
is tied to the construction of its object; the control thread of a PID controller is the one
`startThread()` starts. So constructing an odometry controller starts one odometry loop,
constructing any other object starts nothing, and `startThread()` starts one control loop. -/
def threadsStarted : List Event → Threads
  | [] => { odometry := 0, control := 0 }
  | Event.makeChassisController c :: rest =>
    match c.strategy with
    | Strategy.odomPID | Strategy.odomIntegrated =>
      { threadsStarted rest with odometry := (threadsStarted rest).odometry + 1 }
    | Strategy.pid | Strategy.integrated => threadsStarted rest
  | Event.startThread :: rest =>
    { threadsStarted rest with control := (threadsStarted rest).control + 1 }
  | _ :: rest => threadsStarted rest

/-- What the claim about logging asks of one call on the builder `b`: a call that throws wrote
exactly one event, an error-level entry on the logger of `b` with the text of the thrown
error; a call that returns wrote no error-level entry. -/
def Outcome.loggedIffRaised {α : Type} (b : ChassisControllerBuilder) (o : Outcome α) : Prop :=
  match o.result with
  | Except.error msg => o.events = [Event.logError b.logger msg]
  | Except.ok _ => errorLogs o.events = []

/-- Whether a call logged as the claim asks can be computed from its outcome. -/
instance Outcome.decidableLoggedIffRaised {α : Type} (b : ChassisControllerBuilder)
    (o : Outcome α) : Decidable (o.loggedIffRaised b) := by
  unfold Outcome.loggedIffRaised
  split <;> infer_instance

/-! ## The motor velocity controller -/

/-- An implementation of the abstract class `IterativeVelocityController`, as far as
`IterativeMotorVelocityController` uses it: `step(reading)` changes the state of the
controller (the value it returns is discarded by the caller) and the `const` member
`getOutput()` reads the output off the state. -/
structure IterativeVelocityController (σ : Type) where
  step : σ → ℚ → σ
  getOutput : σ → ℚ

/-- The value of a `double` with its fractional part discarded (truncation toward zero). -/
def truncate (x : ℚ) : Int := if 0 ≤ x then ⌊x⌋ else ⌈x⌉

/-- The conversion `static_cast<int>(x)` of a `double`: the fractional part is discarded; the
behaviour is undefined, here `none`, when the truncated value is not a 32-bit `int`. -/
def staticCastInt (x : ℚ) : Option Int :=
  if -2147483648 ≤ truncate x ∧ truncate x ≤ 2147483647 then some (truncate x) else none

/-- The conversion of an `int` argument to the parameter type `int16_t` of
`pros::Motor::move_velocity`: the value modulo 2^16, in the range of `int16_t`. -/
def toInt16 (i : Int) : Int := (i + 32768) % 65536 - 32768

/-- The members of `IterativeMotorVelocityController`: the state of the inner controller and the
motor, which is represented by the velocities `move_velocity` was called with, oldest first. -/
structure IterativeMotorVelocityController (σ : Type) where
  controller : σ
  motor : List Int

/-- The function `IterativeMotorVelocityController::step`: the new state and the value
returned, or `none` where the cast is undefined. -/
def IterativeMotorVelocityController.step {σ : Type} (impl : IterativeVelocityController σ)
    (s : IterativeMotorVelocityController σ) (ireading : ℚ) :
    Option (IterativeMotorVelocityController σ × ℚ) :=
  let controller := impl.step s.controller ireading
  match staticCastInt (impl.getOutput controller) with
  | none => none
  | some v =>
    some ({ controller := controller, motor := s.motor ++ [toInt16 v] },
          impl.getOutput controller)

/-- The function `IterativeMotorVelocityController::getOutput`. -/
def IterativeMotorVelocityController.getOutput {σ : Type} (impl : IterativeVelocityController σ)
    (s : IterativeMotorVelocityController σ) : ℚ :=
  impl.getOutput s.controller

/-- An inner controller whose output is the last reading it was stepped with. -/
def passThrough : IterativeVelocityController ℚ :=
  { step := fun _ reading => reading, getOutput := fun state => state }

/-- The decision table of §4.1, step 3, as the specification words it: the strategy for each
pair (odometry requested, gains supplied). -/
def selectStrategy (odometryRequested gainsSupplied : Bool) : Strategy :=
  match odometryRequested, gainsSupplied with
  | true, true => Strategy.odomPID
  | true, false => Strategy.odomIntegrated
  | false, true => Strategy.pid
  | false, false => Strategy.integrated

/-- The kinematics model an odometry estimator was constructed over. -/
def Odometry.model : Odometry → SkidSteerModel
  | .odometry _ m _ _ _ => m
  | .threeEncoderOdometry _ m _ _ _ => m
  | .other _ m => m

/-- The left sensor a skid-steer model was constructed with. -/
def SkidSteerModel.leftEnc : SkidSteerModel → SensorPtr
  | .skidSteerModel _ _ l _ _ _ => l
  | .threeEncoderSkidSteerModel _ _ l _ _ _ _ => l

/-- The right sensor a skid-steer model was constructed with. -/
def SkidSteerModel.rightEnc : SkidSteerModel → SensorPtr
  | .skidSteerModel _ _ _ r _ _ => r
  | .threeEncoderSkidSteerModel _ _ _ _ r _ _ => r

/-- The left sensor a kinematics model was constructed with. -/
def ChassisModel.leftEnc : ChassisModel → SensorPtr
  | .skidSteer m => m.leftEnc
  | .xDrive m => m.leftEnc

/-- The right sensor a kinematics model was constructed with. -/
def ChassisModel.rightEnc : ChassisModel → SensorPtr
  | .skidSteer m => m.rightEnc
  | .xDrive m => m.rightEnc

/-- The PID controllers a chassis controller was constructed with: distance, angle, turn. -/
def ChassisController.pidControllers : ChassisController → List IterativePosPIDController
  | .odomChassisControllerPID _ _ _ d a t .. => [d, a, t]
  | .chassisControllerPID _ _ d a t .. => [d, a, t]
  | .odomChassisControllerIntegrated .. => []
  | .chassisControllerIntegrated .. => []

/-- The on-device position controllers a chassis controller was constructed with: left,
right. -/
def ChassisController.asyncControllers : ChassisController → List AsyncPosIntegratedController
  | .odomChassisControllerIntegrated _ _ _ l r .. => [l, r]
  | .chassisControllerIntegrated _ _ l r .. => [l, r]
  | .odomChassisControllerPID .. => []
  | .chassisControllerPID .. => []

/-- The motors of an X-drive motor set. -/
def XDriveMotors.toList (m : XDriveMotors) : List MotorPtr :=
  [m.topLeft, m.topRight, m.bottomRight, m.bottomLeft]

/-- Whether a call is one of the `withSensors` overloads. -/
def Call.isWithSensors : Call → Bool
  | .withSensors .. => true
  | .withSensors3 .. => true
  | _ => false

/-- Whether a call is the two-motor `withMotors` overload. -/
def Call.isWithMotors2 : Call → Bool
  | .withMotors .. => true
  | _ => false

/-- The builder `b` uses the sensors `l` and `r` at `build()`: they are its left and right
sensor members, and every kinematics model `build()` constructs is given them. -/
def usesSensors (b : ChassisControllerBuilder) (l r : SensorPtr) : Prop :=
  b.leftSensor = l ∧ b.rightSensor = r ∧
  ∀ m ∈ modelsMade b.build.events, m.leftEnc = l ∧ m.rightEnc = r

/-- The left motor a skid-steer model was constructed with. -/
def SkidSteerModel.left : SkidSteerModel → MotorPtr
  | .skidSteerModel l _ _ _ _ _ => l
  | .threeEncoderSkidSteerModel l _ _ _ _ _ _ => l

/-- The right motor a skid-steer model was constructed with. -/
def SkidSteerModel.right : SkidSteerModel → MotorPtr
  | .skidSteerModel _ r _ _ _ _ => r
  | .threeEncoderSkidSteerModel _ r _ _ _ _ _ => r

/-- Whether a skid-steer model object is a `ThreeEncoderSkidSteerModel`. -/
def SkidSteerModel.isThreeEncoder : SkidSteerModel → Bool
  | .skidSteerModel .. => false
  | .threeEncoderSkidSteerModel .. => true

/-! ## The timer -/

/-- The difference `a - b` of two `uint32_t` values: the difference modulo 2^32. -/
def sub32 (a b : Nat) : Nat := (a + (4294967296 - b % 4294967296)) % 4294967296

/-- The data members of `Timer`, all `uint32_t`. -/
structure Timer where
  firstCalled : Nat
  lastCalled : Nat
  mark : Nat
  hardMark : Nat
  repeatMark : Nat
  deriving DecidableEq

namespace Timer

/-- The constructor `Timer::Timer`; `now` is the value `pros::millis()` returns. -/
def init (now : Nat) : Timer :=
  { firstCalled := now, lastCalled := 0, mark := 0, hardMark := 0, repeatMark := 0 }

/-- The function `Timer::getDt`; `now` is the value `pros::millis()` returns. -/
def getDt (t : Timer) (now : Nat) : Nat × Timer :=
  (sub32 now t.lastCalled, { t with lastCalled := now })

/-- The function `Timer::getStartingTime`. -/
def getStartingTime (t : Timer) : Nat := t.firstCalled

/-- The function `Timer::getDtFromStart`; `now` is the value `pros::millis()` returns. -/
def getDtFromStart (t : Timer) (now : Nat) : Nat := sub32 now t.firstCalled

/-- The function `Timer::placeMark`; `now` is the value `pros::millis()` returns. -/
def placeMark (t : Timer) (now : Nat) : Timer := { t with mark := now }

/-- The function `Timer::placeHardMark`; `now` is the value `pros::millis()` returns. -/
def placeHardMark (t : Timer) (now : Nat) : Timer :=
  if t.hardMark = 0 then { t with hardMark := now } else t

/-- The function `Timer::clearHardMark`: the old mark and the timer with the mark cleared. -/
def clearHardMark (t : Timer) : Nat × Timer :=
  (t.hardMark, { t with hardMark := 0 })

/-- The function `Timer::getDtFromMark`; `now` is the value `pros::millis()` returns. -/
def getDtFromMark (t : Timer) (now : Nat) : Nat := sub32 now t.mark

/-- The function `Timer::getDtFromHardMark`; `now` is the value `pros::millis()` returns. -/
def getDtFromHardMark (t : Timer) (now : Nat) : Nat :=
  if t.hardMark = 0 then 0 else sub32 now t.hardMark

end Timer

/-- The function `Timer::repeat(ms)`. It calls `pros::millis()` twice when `repeatMark` is
zero: `now1` is the value stored as the mark and `now2` the value the test reads; when
`repeatMark` is not zero only the test reads the clock, and gets `now2`. -/
def Timer.repeat (t : Timer) (ms now1 now2 : Nat) : Bool × Timer :=
  let t1 := if t.repeatMark = 0 then { t with repeatMark := now1 } else t
  if ms ≤ sub32 now2 t1.repeatMark then (true, { t1 with repeatMark := 0 }) else (false, t1)

/-- A member function of `Timer` with its arguments. -/
inductive TimerCall where
  | getDt
  | getStartingTime
  | getDtFromStart
  | placeMark
  | placeHardMark
  | clearHardMark
  | getDtFromMark
  | getDtFromHardMark
  | repeatMs (ms : Nat)
  deriving DecidableEq

/-- What a call on a timer returns: nothing, a `uint32_t` or a `bool`. -/
inductive TimerValue where
  | void
  | uint (v : Nat)
  | bool (b : Bool)
  deriving DecidableEq

/-- One call on a timer together with the clock values it reads: `now2` is the value of the
only or last `pros::millis()` call of the function and `now1` the value of the first call
when the function reads the clock twice. -/
structure TimerStep where
  call : TimerCall
  now1 : Nat
  now2 : Nat
  deriving DecidableEq

/-- The value a call returns and the timer afterwards. -/
def Timer.step (t : Timer) (s : TimerStep) : TimerValue × Timer :=
  match s.call with
  | .getDt => (TimerValue.uint (t.getDt s.now2).1, (t.getDt s.now2).2)
  | .getStartingTime => (TimerValue.uint t.getStartingTime, t)
  | .getDtFromStart => (TimerValue.uint (t.getDtFromStart s.now2), t)
  | .placeMark => (TimerValue.void, t.placeMark s.now2)
  | .placeHardMark => (TimerValue.void, t.placeHardMark s.now2)
  | .clearHardMark => (TimerValue.uint t.clearHardMark.1, t.clearHardMark.2)
  | .getDtFromMark => (TimerValue.uint (t.getDtFromMark s.now2), t)
  | .getDtFromHardMark => (TimerValue.uint (t.getDtFromHardMark s.now2), t)
  | .repeatMs ms =>
    (TimerValue.bool (Timer.repeat t ms s.now1 s.now2).1, (Timer.repeat t ms s.now1 s.now2).2)

/-- The timer after a sequence of calls. -/
def Timer.runSteps (t : Timer) (steps : List TimerStep) : Timer :=
  steps.foldl (fun acc s => (acc.step s).2) t

/-- The clock values of a sequence of calls never decrease, starting from `lo`. -/
def clockOrdered : Nat → List TimerStep → Prop
  | _, [] => True
  | lo, s :: rest => lo ≤ s.now1 ∧ s.now1 ≤ s.now2 ∧ clockOrdered s.now2 rest

/-- The clock values at which a call in the sequence returned `true`, in order. -/
def repeatTrueTimes : Timer → List TimerStep → List Nat
  | _, [] => []
  | t, s :: rest =>
    (if (t.step s).1 = TimerValue.bool true then [s.now2] else []) ++
      repeatTrueTimes (t.step s).2 rest

/-- Whether the clock values of a sequence of calls never decrease can be computed. -/
instance decidableClockOrdered :
    (lo : Nat) → (steps : List TimerStep) → Decidable (clockOrdered lo steps)
  | _, [] => inferInstanceAs (Decidable True)
  | lo, s :: rest =>
    have := decidableClockOrdered s.now2 rest
    inferInstanceAs (Decidable (lo ≤ s.now1 ∧ s.now1 ≤ s.now2 ∧ clockOrdered s.now2 rest))

/-! ## The average filter -/

/-- Modelled from the spec: the member functions of the class template `AverageFilter<n>` are
outside the sources at hand; its header declares the members `data` (an array of `n`
readings), `index` and `output`. The filter is a smoothing function over a window of `n` taps
(§2, §8). A `float` is a rational number here, so the rounding of float arithmetic is left
out. -/
structure AverageFilter (n : Nat) where
  data : List ℚ
  index : Nat
  output : ℚ
  deriving DecidableEq

namespace AverageFilter

/-- Modelled from the spec: the constructor `AverageFilter()`, missing from the sources; all
taps, the index and the output start at zero. -/
def init (n : Nat) : AverageFilter n :=
  { data := List.replicate n 0, index := 0, output := 0 }

/-- Modelled from the spec: the member function `filter(ireading)`, missing from the sources.
The reading replaces the tap at `index`, `index` moves on cyclically, and the output becomes
the mean of the `n` taps (§8: a 2-tap filter fed 4.0 then 6.0 yields 5.0). Returns the output
and the filter afterwards. -/
def filter {n : Nat} (f : AverageFilter n) (ireading : ℚ) : ℚ × AverageFilter n :=
  let data := f.data.set f.index ireading
  let index := if n ≤ f.index + 1 then 0 else f.index + 1
  let output := data.sum / (n : ℚ)
  (output, { data := data, index := index, output := output })

/-- Modelled from the spec: the member function `getOutput()`, missing from the sources; the
filter abstraction of §6 pairs `filter(reading)` with `getOutput()`, the last output. -/
def getOutput {n : Nat} (f : AverageFilter n) : ℚ := f.output

/-- The filter after it was fed the readings in order. -/
def feed {n : Nat} (f : AverageFilter n) (readings : List ℚ) : AverageFilter n :=
  readings.foldl (fun acc r => (acc.filter r).2) f

/-- The taps of a filter in the order they were written, oldest first. -/
def window {n : Nat} (f : AverageFilter n) : List ℚ :=
  f.data.drop f.index ++ f.data.take f.index

end AverageFilter

/-- The parts of a `VelMath` that `VelMathFactory::create` decides: ticks per revolution, the
averaging filter with its number of taps, and the timer. -/
structure VelMath where
  ticksPerRev : ℚ
  taps : Nat
  filter : AverageFilter taps
  timer : Timer

/-- The function `VelMathFactory::create(iticksPerRev)`: a 2-tap average filter and a new
timer; `now` is the value `pros::millis()` returns in the constructor of the timer. -/
def VelMathFactory.create (iticksPerRev : ℚ) (now : Nat) : VelMath :=
  { ticksPerRev := iticksPerRev, taps := 2, filter := AverageFilter.init 2,
    timer := Timer.init now }

/-- Whether a call is the three-sensor `withSensors` overload. -/
def Call.isWithSensors3 : Call → Bool
  | .withSensors3 .. => true
  | _ => false

/-- The middle sensor a skid-steer model was constructed with; a `SkidSteerModel` that is not a
`ThreeEncoderSkidSteerModel` has none. -/
def SkidSteerModel.middleEnc : SkidSteerModel → SensorPtr
  | .skidSteerModel .. => none
  | .threeEncoderSkidSteerModel _ _ _ m _ _ _ => m

/-- The hard mark as the claim about it describes it: no mark at construction (`none`) and
after `clearHardMark()`; otherwise the clock value of the first `placeHardMark()` since then.
This is the mark after the calls `steps`, starting from the mark `m`. -/
def specHardMark : Option Nat → List TimerStep → Option Nat
  | m, [] => m
  | m, s :: rest =>
    match s.call with
    | .placeHardMark => specHardMark (if m = none then some s.now2 else m) rest
    | .clearHardMark => specHardMark none rest
    | _ => specHardMark m rest

/-! ## The controller button -/

/-- The data members of `ControllerButton`: controller id, button id, the inversion flag and
the stored sample `wasPressedLast`. -/
structure ControllerButton where
  controller : Nat
  btn : Nat
  inverted : Bool
  wasPressedLast : Bool
  deriving DecidableEq

namespace ControllerButton

/-- The constructor `ControllerButton(icontroller, ibtn, iinverted)`. -/
def init (icontroller ibtn : Nat) (iinverted : Bool) : ControllerButton :=
  { controller := icontroller, btn := ibtn, inverted := iinverted, wasPressedLast := false }

/-- The function `currentlyPressed`; `raw` is the value `controller.get_digital(btn)`
returns. -/
def currentlyPressed (b : ControllerButton) (raw : Int) : Bool :=
  let pressed := decide (raw ≠ 0)
  if b.inverted then !pressed else pressed

/-- The function `isPressed`: the value returned and the button afterwards. -/
def isPressed (b : ControllerButton) (raw : Int) : Bool × ControllerButton :=
  let b1 := { b with wasPressedLast := b.currentlyPressed raw }
  (b1.wasPressedLast, b1)

/-- The function `edge`: the value returned and the button afterwards. -/
def edge (b : ControllerButton) (raw : Int) : Bool × ControllerButton :=
  let pressed := b.currentlyPressed raw
  let out := xor pressed b.wasPressedLast
  (out, { b with wasPressedLast := pressed })

/-- The function `risingEdge`: `edge() && wasPressedLast`, where the right operand reads the
sample `edge()` has just stored. -/
def risingEdge (b : ControllerButton) (raw : Int) : Bool × ControllerButton :=
  ((b.edge raw).1 && (b.edge raw).2.wasPressedLast, (b.edge raw).2)

/-- The function `fallingEdge`: `edge() && !wasPressedLast`, where the right operand reads the
sample `edge()` has just stored. -/
def fallingEdge (b : ControllerButton) (raw : Int) : Bool × ControllerButton :=
  ((b.edge raw).1 && !(b.edge raw).2.wasPressedLast, (b.edge raw).2)

end ControllerButton

open ChassisControllerBuilder

/-- C1. When motors were supplied and the layout check passes (odometry is only requested on a
skid-steer layout), `build()` returns a controller, and its class is the one the decision table
gives for the pair (odometry requested, gains supplied): the result depends on the builder
only through these two flags. -/
theorem build_selects_strategy (b : ChassisControllerBuilder)
    (hm : b.hasMotors = true) (hl : b.hasOdom = true → b.isSkidSteer = true) :
    ∃ c, b.build.result = Except.ok c ∧ c.strategy = selectStrategy b.hasOdom b.hasGains := by
  cases ho : b.hasOdom <;> cases hg : b.hasGains <;> cases hs : b.isSkidSteer <;>
    simp_all [build, buildOCCPID, buildOCCI, buildCCPID, buildCCI, selectStrategy,
      ChassisController.strategy]

/-- C1, at a concrete builder: two motors, odometry and gains. -/
theorem build_selects_strategy_witness :
    (runCalls sample [.withMotors ⟨1⟩ ⟨2⟩, .withOdometry 0 0 0,
        .withGains ⟨1, 0, 0⟩ ⟨1, 0, 0⟩]).hasMotors = true ∧
    ∃ c, (runCalls sample [.withMotors ⟨1⟩ ⟨2⟩, .withOdometry 0 0 0,
        .withGains ⟨1, 0, 0⟩ ⟨1, 0, 0⟩]).build.result = Except.ok c ∧
      c.strategy = Strategy.odomPID :=
  ⟨by decide,
   build_selects_strategy
     (runCalls sample [.withMotors ⟨1⟩ ⟨2⟩, .withOdometry 0 0 0, .withGains ⟨1, 0, 0⟩ ⟨1, 0, 0⟩])
     (by decide) (by decide)⟩

/-- A configuration call other than `withMotors` leaves the flag `hasMotors` as it is. -/
theorem run_preserves_hasMotors (c : Call) (b : ChassisControllerBuilder)
    (hc : c.isWithMotors = false) : (c.run b).builder.hasMotors = b.hasMotors := by
  cases c <;> simp_all [Call.run, Call.isWithMotors, Outcome.pure,
    ChassisControllerBuilder.withSensors, ChassisControllerBuilder.withSensors3,
    ChassisControllerBuilder.withGains, ChassisControllerBuilder.withGains3,
    ChassisControllerBuilder.withDerivativeFilters, ChassisControllerBuilder.withTimeUtilFactory,
    ChassisControllerBuilder.withOdometry, ChassisControllerBuilder.withOdometryCustom,
    ChassisControllerBuilder.withGearset, ChassisControllerBuilder.withDimensions,
    ChassisControllerBuilder.withMaxVelocity, ChassisControllerBuilder.withMaxVoltage,
    ChassisControllerBuilder.withLogger]
  all_goals (split <;> simp_all)

/-- A sequence of configuration calls without `withMotors` leaves `hasMotors` as it is. -/
theorem runCalls_hasMotors (calls : List Call) (b : ChassisControllerBuilder)
    (hc : ∀ c ∈ calls, c.isWithMotors = false) : (runCalls b calls).hasMotors = b.hasMotors := by
  induction calls generalizing b with
  | nil => rfl
  | cons c cs ih =>
    have h1 := run_preserves_hasMotors c b (hc c (List.mem_cons_self c cs))
    have h2 := ih (c.run b).builder (fun d hd => hc d (List.mem_cons_of_mem c hd))
    simpa [runCalls, h1] using h2

/-- C2. On a builder that starts without motors and on which no `withMotors` overload is
called, whatever other setters are called, `build()` throws the error "No motors given"; the
only event of the call is the log entry, so no model, controller or odometry object is
constructed, and the builder is left as it was. -/
theorem build_without_motors (b0 : ChassisControllerBuilder) (calls : List Call)
    (h0 : b0.hasMotors = false) (hc : ∀ c ∈ calls, c.isWithMotors = false) :
    (runCalls b0 calls).build.result = Except.error noMotorsMsg ∧
    (runCalls b0 calls).build.events = [Event.logError (runCalls b0 calls).logger noMotorsMsg] ∧
    constructions (runCalls b0 calls).build.events = [] ∧
    (runCalls b0 calls).build.builder = runCalls b0 calls := by
  have h : (runCalls b0 calls).hasMotors = false := by
    rw [runCalls_hasMotors calls b0 hc, h0]
  simp [build, h, constructions]

/-- C2, at a concrete builder: odometry, gains, sensors and gearset set, but no motors. -/
theorem build_without_motors_witness :
    sample.hasMotors = false ∧
    (∀ c ∈ [Call.withOdometry 0 0 0, .withGains ⟨1, 0, 0⟩ ⟨1, 0, 0⟩,
        .withSensors (some (.external 1)) (some (.external 2)), .withGearset ⟨⟨600⟩, 1⟩],
      c.isWithMotors = false) ∧
    (runCalls sample [.withOdometry 0 0 0, .withGains ⟨1, 0, 0⟩ ⟨1, 0, 0⟩,
        .withSensors (some (.external 1)) (some (.external 2)),
        .withGearset ⟨⟨600⟩, 1⟩]).build.result = Except.error noMotorsMsg :=
  ⟨by decide, by decide,
   (build_without_motors sample
     [.withOdometry 0 0 0, .withGains ⟨1, 0, 0⟩ ⟨1, 0, 0⟩,
      .withSensors (some (.external 1)) (some (.external 2)), .withGearset ⟨⟨600⟩, 1⟩]
     (by decide) (by decide)).1⟩

/-- C3. With motors supplied, odometry requested and the X-drive layout active, `build()`
throws the error "Odometry only support with skid-steer layout" and returns no controller,
with or without gains and whatever the member `odometry` holds; nothing is constructed. -/
theorem build_odometry_xdrive_fails (b : ChassisControllerBuilder)
    (hm : b.hasMotors = true) (ho : b.hasOdom = true) (hx : b.isSkidSteer = false) :
    b.build.result = Except.error skidSteerOnlyMsg ∧
    (∀ c, b.build.result ≠ Except.ok c) ∧
    constructions b.build.events = [] := by
  cases hg : b.hasGains <;>
    simp [build, buildOCCPID, buildOCCI, hm, ho, hx, hg, constructions]

/-- C3, at a concrete builder: four motors, gains and a custom estimator. -/
theorem build_odometry_xdrive_fails_witness :
    (runCalls sample [.withMotors4 ⟨1⟩ ⟨2⟩ ⟨3⟩ ⟨4⟩, .withGains ⟨1, 0, 0⟩ ⟨1, 0, 0⟩,
      .withOdometryCustom (some (.other 7 (.skidSteerModel none none none none 0 0))) 0 0]
      ).isSkidSteer = false ∧
    (runCalls sample [.withMotors4 ⟨1⟩ ⟨2⟩ ⟨3⟩ ⟨4⟩, .withGains ⟨1, 0, 0⟩ ⟨1, 0, 0⟩,
      .withOdometryCustom (some (.other 7 (.skidSteerModel none none none none 0 0))) 0 0]
      ).build.result = Except.error skidSteerOnlyMsg :=
  ⟨by decide,
   (build_odometry_xdrive_fails
     (runCalls sample [.withMotors4 ⟨1⟩ ⟨2⟩ ⟨3⟩ ⟨4⟩, .withGains ⟨1, 0, 0⟩ ⟨1, 0, 0⟩,
      .withOdometryCustom (some (.other 7 (.skidSteerModel none none none none 0 0))) 0 0])
     (by decide) (by decide) (by decide)).1⟩

/-- C4. On a skid-steer builder with motors, odometry requested and no estimator held,
`build()` constructs exactly one estimator and hands it to the controller: a
`ThreeEncoderOdometry` when a middle sensor is present and an `Odometry` (two sensors) when it
is not, over the model of the controller; this holds with and without gains. -/
theorem build_default_odometry (b : ChassisControllerBuilder)
    (hm : b.hasMotors = true) (ho : b.hasOdom = true) (hs : b.isSkidSteer = true)
    (hn : b.odometry = none) :
    ∃ c o, b.build.result = Except.ok c ∧ c.odometry = some o ∧
      odometryMade b.build.events = [o] ∧
      c.strategy = selectStrategy true b.hasGains ∧
      (b.middleSensor ≠ none → o = Odometry.threeEncoderOdometry TimeUtil.static
        b.makeSkidSteerModel b.scales b.wheelVelDelta b.controllerLogger) ∧
      (b.middleSensor = none → o = Odometry.odometry TimeUtil.static
        b.makeSkidSteerModel b.scales b.wheelVelDelta b.controllerLogger) ∧
      ((∃ t m sc w l, o = Odometry.threeEncoderOdometry t m sc w l) ↔ b.middleSensor ≠ none) := by
  cases hg : b.hasGains <;> cases hmid : b.middleSensor <;>
    simp [build, buildOCCPID, buildOCCI, hm, ho, hs, hn, hg, hmid, odometryMade,
      defaultOdometry, selectStrategy, ChassisController.strategy, ChassisController.odometry]

/-- C4, at a concrete builder: two motors, three sensors, odometry requested, no gains. -/
theorem build_default_odometry_witness :
    (runCalls sample [.withMotors ⟨1⟩ ⟨2⟩,
      .withSensors3 (some (.external 1)) (some (.external 2)) (some (.external 3)),
      .withOdometry 0 0 0]).odometry = none ∧
    ∃ c o, (runCalls sample [.withMotors ⟨1⟩ ⟨2⟩,
      .withSensors3 (some (.external 1)) (some (.external 2)) (some (.external 3)),
      .withOdometry 0 0 0]).build.result = Except.ok c ∧ c.odometry = some o ∧
      ∃ t m sc w l, o = Odometry.threeEncoderOdometry t m sc w l :=
  ⟨by decide,
   match build_default_odometry
     (runCalls sample [.withMotors ⟨1⟩ ⟨2⟩,
      .withSensors3 (some (.external 1)) (some (.external 2)) (some (.external 3)),
      .withOdometry 0 0 0]) (by decide) (by decide) (by decide) (by decide) with
   | ⟨c, o, h1, h2, _, _, _, _, h7⟩ => ⟨c, o, h1, h2, h7.mpr (by decide)⟩⟩

/-- The builder after a sequence that starts with the call `c`. -/
theorem runCalls_cons (b : ChassisControllerBuilder) (c : Call) (cs : List Call) :
    runCalls b (c :: cs) = runCalls (c.run b).builder cs := rfl

/-- The builder after two sequences of calls, one after the other. -/
theorem runCalls_append (b : ChassisControllerBuilder) (xs ys : List Call) :
    runCalls b (xs ++ ys) = runCalls (runCalls b xs) ys := by
  simp [runCalls, List.foldl_append]

/-- C6. When gains were supplied and `build()` succeeds (motors given; odometry only on a
skid-steer layout), the last two events of `build()` are the construction of the returned
controller and the call `startThread()` on it: the thread is started exactly once, after the
controller and all its parts are constructed, and nothing happens between the start and the
return. -/
theorem build_pid_starts_thread (b : ChassisControllerBuilder)
    (hm : b.hasMotors = true) (hg : b.hasGains = true)
    (hl : b.hasOdom = true → b.isSkidSteer = true) :
    ∃ c before, b.build.result = Except.ok c ∧
      b.build.events = before ++ [Event.makeChassisController c, Event.startThread] ∧
      Event.startThread ∉ before ∧
      (∀ e ∈ before, e ∈ constructions before ∧ ∀ d, e ≠ Event.makeChassisController d) ∧
      b.build.events.count Event.startThread = 1 ∧
      (c.strategy = Strategy.odomPID ∨ c.strategy = Strategy.pid) := by
  cases ho : b.hasOdom <;> cases hs : b.isSkidSteer <;> cases hod : b.odometry <;>
    simp_all [build, buildOCCPID, buildCCPID, ChassisController.strategy] <;>
    (first | refine ⟨[_, _, _, _], rfl, ?_⟩ | refine ⟨[_, _, _, _, _], rfl, ?_⟩) <;>
    simp [constructions]

/-- C6, at a concrete builder: four motors and gains (X-drive, no odometry). -/
theorem build_pid_starts_thread_witness :
    (runCalls sample [.withMotors4 ⟨1⟩ ⟨2⟩ ⟨3⟩ ⟨4⟩, .withGains ⟨1, 0, 0⟩ ⟨1, 0, 0⟩]).hasGains
      = true ∧
    ∃ c before,
      (runCalls sample [.withMotors4 ⟨1⟩ ⟨2⟩ ⟨3⟩ ⟨4⟩, .withGains ⟨1, 0, 0⟩ ⟨1, 0, 0⟩]).build.result
        = Except.ok c ∧
      (runCalls sample [.withMotors4 ⟨1⟩ ⟨2⟩ ⟨3⟩ ⟨4⟩, .withGains ⟨1, 0, 0⟩ ⟨1, 0, 0⟩]).build.events
        = before ++ [Event.makeChassisController c, Event.startThread] ∧
      Event.startThread ∉ before :=
  ⟨by decide,
   match build_pid_starts_thread
     (runCalls sample [.withMotors4 ⟨1⟩ ⟨2⟩ ⟨3⟩ ⟨4⟩, .withGains ⟨1, 0, 0⟩ ⟨1, 0, 0⟩])
     (by decide) (by decide) (by decide) with
   | ⟨c, before, h1, h2, h3, _⟩ => ⟨c, before, h1, h2, h3⟩⟩

/-- C7. With motors given and no gains: on a skid-steer builder with odometry requested,
`build()` returns an `OdomChassisControllerIntegrated`, never calls `startThread()`, and by
the time it returns one odometry loop and no control loop has been started; with neither
odometry nor gains, `build()` returns a `ChassisControllerIntegrated` and no thread at all has
been started. -/
theorem build_integrated_threads (b : ChassisControllerBuilder)
    (hm : b.hasMotors = true) (hg : b.hasGains = false) :
    (b.hasOdom = true → b.isSkidSteer = true →
      ∃ c, b.build.result = Except.ok c ∧ c.strategy = Strategy.odomIntegrated ∧
        Event.startThread ∉ b.build.events ∧
        threadsStarted b.build.events = { odometry := 1, control := 0 }) ∧
    (b.hasOdom = false →
      ∃ c, b.build.result = Except.ok c ∧ c.strategy = Strategy.integrated ∧
        Event.startThread ∉ b.build.events ∧
        threadsStarted b.build.events = { odometry := 0, control := 0 }) := by
  constructor
  · intro ho hs
    cases hod : b.odometry <;>
      simp [build, buildOCCI, hm, hg, ho, hs, hod, ChassisController.strategy, threadsStarted]
  · intro ho
    cases hs : b.isSkidSteer <;>
      simp [build, buildCCI, hm, hg, ho, hs, ChassisController.strategy, threadsStarted]

/-- C7, at a concrete builder: two motors and odometry, no gains. -/
theorem build_integrated_threads_witness :
    (runCalls sample [.withMotors ⟨1⟩ ⟨2⟩, .withOdometry 0 0 0]).hasGains = false ∧
    ∃ c, (runCalls sample [.withMotors ⟨1⟩ ⟨2⟩, .withOdometry 0 0 0]).build.result
        = Except.ok c ∧
      c.strategy = Strategy.odomIntegrated ∧
      threadsStarted (runCalls sample [.withMotors ⟨1⟩ ⟨2⟩, .withOdometry 0 0 0]).build.events
        = { odometry := 1, control := 0 } :=
  ⟨by decide,
   match (build_integrated_threads (runCalls sample [.withMotors ⟨1⟩ ⟨2⟩, .withOdometry 0 0 0])
     (by decide) (by decide)).1 (by decide) (by decide) with
   | ⟨c, h1, h2, _, h4⟩ => ⟨c, h1, h2, h4⟩⟩

/-- C8, as stated, fails: on a builder with two motors, `withOdometry(nullptr, ...)` throws at
the call, inside the setter; the builder is left without an odometry request, and `build()`
on it afterwards succeeds. -/
theorem withOdometry_null_raises_at_call :
    ((Call.withOdometryCustom none 0 0).run (runCalls sample [.withMotors ⟨1⟩ ⟨2⟩])).result
      = Except.error nullOdometryMsg ∧
    ∃ c, (runCalls sample [.withMotors ⟨1⟩ ⟨2⟩, .withOdometryCustom none 0 0]).build.result
      = Except.ok c :=
  ⟨rfl, _, rfl⟩

/-- C8, amended. A configuration call throws exactly when it is `withOdometry` with a null
estimator, the error is "Odometry cannot be null", and the call leaves the builder unchanged;
no other setter throws. `build()` throws "No motors given" exactly when no motors were given
and the skid-steer-only error exactly when motors were given and odometry was requested on
an X-drive layout; it throws nothing else, in particular never the null-estimator error. -/
theorem configuration_errors (b : ChassisControllerBuilder) :
    (∀ (c : Call) (msg : String), (c.run b).result = Except.error msg ↔
      (msg = nullOdometryMsg ∧ ∃ m t, c = Call.withOdometryCustom none m t)) ∧
    (∀ m t, (b.withOdometryCustom none m t).builder = b) ∧
    (b.build.result = Except.error noMotorsMsg ↔ b.hasMotors = false) ∧
    (b.build.result = Except.error skidSteerOnlyMsg ↔
      (b.hasMotors = true ∧ b.hasOdom = true ∧ b.isSkidSteer = false)) ∧
    (∀ msg, b.build.result = Except.error msg → msg = noMotorsMsg ∨ msg = skidSteerOnlyMsg) := by
  have hne : skidSteerOnlyMsg ≠ noMotorsMsg := by decide
  refine ⟨?_, ?_, ?_, ?_, ?_⟩
  · intro c msg
    cases c <;> simp [Call.run, Outcome.pure, withOdometryCustom]
    case withOdometryCustom o m t =>
      cases o <;> simp [eq_comm]
  · intro m t
    simp [withOdometryCustom]
  · cases hm : b.hasMotors <;> cases ho : b.hasOdom <;> cases hg : b.hasGains <;>
      cases hs : b.isSkidSteer <;>
      simp [build, buildOCCPID, buildOCCI, buildCCPID, buildCCI, hm, ho, hg, hs, hne]
  · cases hm : b.hasMotors <;> cases ho : b.hasOdom <;> cases hg : b.hasGains <;>
      cases hs : b.isSkidSteer <;>
      simp [build, buildOCCPID, buildOCCI, buildCCPID, buildCCI, hm, ho, hg, hs, hne.symm]
  · intro msg
    cases hm : b.hasMotors <;> cases ho : b.hasOdom <;> cases hg : b.hasGains <;>
      cases hs : b.isSkidSteer <;>
      simp [build, buildOCCPID, buildOCCI, buildCCPID, buildCCI, hm, ho, hg, hs, eq_comm] <;>
      intro h <;> simp [h]

/-- C8, amended, at a concrete builder: the null-estimator call throws, `withGearset` does
not, and without motors `build()` throws. -/
theorem configuration_errors_witness :
    ((Call.withOdometryCustom none 0 0).run sample).result = Except.error nullOdometryMsg ∧
    sample.build.result = Except.error noMotorsMsg :=
  ⟨((configuration_errors sample).1 (Call.withOdometryCustom none 0 0) nullOdometryMsg).mpr
     ⟨rfl, 0, 0, rfl⟩,
   (configuration_errors sample).2.2.1.mpr (by decide)⟩

/-- C9. Every call of `withOdometry` (estimator overload), `build`, `buildOdometry`,
`buildOCCPID` and `buildOCCI` that throws has exactly one event, an error-level log entry
written to the logger of the builder with the text of the thrown error, so the entry comes
right before the throw; a call that returns normally has no error-level log entry. The same
holds for `buildCCPID` and `buildCCI`, which never throw. -/
theorem validation_failures_logged (b : ChassisControllerBuilder) :
    (∀ o m t, (b.withOdometryCustom o m t).loggedIffRaised b) ∧
    b.build.loggedIffRaised b ∧
    b.buildOdometry.loggedIffRaised b ∧
    b.buildOCCPID.loggedIffRaised b ∧
    b.buildOCCI.loggedIffRaised b ∧
    b.buildCCPID.loggedIffRaised b ∧
    b.buildCCI.loggedIffRaised b := by
  refine ⟨?_, ?_, ?_, ?_, ?_, ?_, ?_⟩
  · intro o m t
    cases o <;> simp [withOdometryCustom, Outcome.loggedIffRaised, errorLogs]
  all_goals
    cases hm : b.hasMotors <;> cases ho : b.hasOdom <;> cases hg : b.hasGains <;>
      cases hs : b.isSkidSteer <;> cases hod : b.odometry <;>
      simp [build, buildOdometry, buildOCCPID, buildOCCI, buildCCPID, buildCCI, hm, ho, hg, hs,
        hod, Outcome.loggedIffRaised, errorLogs]

/-- Truncation leaves an integer value as it is. -/
theorem truncate_intCast (z : Int) : truncate (z : ℚ) = z := by
  simp [truncate]

/-- Truncation moves a value by less than one. -/
theorem abs_sub_truncate_lt_one (x : ℚ) : |x - (truncate x : ℚ)| < 1 := by
  unfold truncate
  split
  · have h1 := Int.floor_le x
    have h2 := Int.lt_floor_add_one x
    rw [abs_lt]; constructor <;> linarith
  · have h1 := Int.le_ceil x
    have h2 := Int.ceil_lt_add_one x
    rw [abs_lt]; constructor <;> linarith

/-- The value five halves truncates to two. -/
theorem truncate_five_halves : truncate (5 / 2) = 2 := by
  have h : ⌊(5 / 2 : ℚ)⌋ = 2 := by
    rw [Int.floor_eq_iff]; constructor <;> norm_num
  have h0 : (0 : ℚ) ≤ 5 / 2 := by norm_num
  simp [truncate, h0, h]

/-- A value in the range of `int16_t` is not changed by the conversion to `int16_t`. -/
theorem toInt16_of_range (z : Int) (h1 : -32768 ≤ z) (h2 : z ≤ 32767) : toInt16 z = z := by
  unfold toInt16
  omega

/-- C10, as stated, fails: with an inner controller whose output after the step is 5/2, `step`
returns 5/2 but commands the motor at velocity 2. -/
theorem step_commanded_differs_from_returned :
    IterativeMotorVelocityController.step passThrough { controller := 0, motor := [] } (5 / 2)
      = some ({ controller := 5 / 2, motor := [2] }, 5 / 2) ∧
    ((2 : Int) : ℚ) ≠ 5 / 2 := by
  constructor
  · have h : staticCastInt (5 / 2) = some 2 := by
      simp [staticCastInt, truncate_five_halves]
    simp only [IterativeMotorVelocityController.step, passThrough, h]
    simp [toInt16]
  · norm_num

/-- C10, amended. Where the cast is defined (the truncated output is a 32-bit `int`),
`step(reading)` advances the inner controller once with that reading, appends one command to
the motor, and returns the output of the advanced inner controller, which is also what
`getOutput()` gives right afterwards. The velocity commanded is the output truncated toward
zero and converted to `int16_t`: it equals the returned value when that value is an integer
in the range of `int16_t`, and the truncation differs from the returned value by less than
one. -/
theorem step_commands_truncated_output {σ : Type} (impl : IterativeVelocityController σ)
    (s : IterativeMotorVelocityController σ) (ireading : ℚ)
    (hlo : -2147483648 ≤ truncate (impl.getOutput (impl.step s.controller ireading)))
    (hhi : truncate (impl.getOutput (impl.step s.controller ireading)) ≤ 2147483647) :
    ∃ s1 out, IterativeMotorVelocityController.step impl s ireading = some (s1, out) ∧
      s1.controller = impl.step s.controller ireading ∧
      out = impl.getOutput (impl.step s.controller ireading) ∧
      s1.motor = s.motor ++ [toInt16 (truncate out)] ∧
      IterativeMotorVelocityController.getOutput impl s1 = out ∧
      |out - (truncate out : ℚ)| < 1 ∧
      (∀ z : Int, -32768 ≤ z → z ≤ 32767 → out = (z : ℚ) → s1.motor = s.motor ++ [z]) := by
  refine ⟨{ controller := impl.step s.controller ireading,
            motor := s.motor ++
              [toInt16 (truncate (impl.getOutput (impl.step s.controller ireading)))] },
          impl.getOutput (impl.step s.controller ireading), ?_, rfl, rfl, rfl, rfl,
          abs_sub_truncate_lt_one _, ?_⟩
  · simp [IterativeMotorVelocityController.step, staticCastInt, hlo, hhi]
  · intro z h1 h2 hz
    simp only [hz, truncate_intCast, toInt16_of_range z h1 h2]

/-- C10, amended, at a concrete controller: the pass-through controller stepped with 5/2. -/
theorem step_commands_truncated_output_witness :
    (-2147483648 ≤ truncate (5 / 2) ∧ truncate (5 / 2) ≤ 2147483647) ∧
    ∃ s1 out, IterativeMotorVelocityController.step passThrough
        { controller := 0, motor := [7] } (5 / 2) = some (s1, out) ∧
      s1.controller = 5 / 2 ∧ out = 5 / 2 ∧
      s1.motor = [7] ++ [toInt16 (truncate out)] :=
  ⟨by rw [truncate_five_halves]; decide,
   match step_commands_truncated_output passThrough { controller := 0, motor := [7] } (5 / 2)
     (by show -2147483648 ≤ truncate (5 / 2); rw [truncate_five_halves]; decide)
     (by show truncate (5 / 2) ≤ 2147483647; rw [truncate_five_halves]; decide) with
   | ⟨s1, out, h1, h2, h3, h4, _⟩ => ⟨s1, out, h1, h2, h3, h4⟩⟩

/-- C13, as stated, fails: a custom estimator that the caller constructed over a model with
motors 8 and 9 is handed to the controller as it is, while the controller gets the model the
builder makes over motors 1 and 2; the estimator does not use the model of the controller. -/
theorem build_custom_odometry_other_model :
    ∃ c o, (runCalls sample [.withMotors ⟨1⟩ ⟨2⟩,
        .withOdometryCustom (some (Odometry.odometry TimeUtil.static
          (SkidSteerModel.skidSteerModel (some ⟨8⟩) (some ⟨9⟩) none none 0 0)
          ⟨1, 1, 1, 1⟩ 0 none)) 0 0]).build.result = Except.ok c ∧
      c.odometry = some o ∧
      o.model = SkidSteerModel.skidSteerModel (some ⟨8⟩) (some ⟨9⟩) none none 0 0 ∧
      c.model ≠ ChassisModel.skidSteer o.model :=
  ⟨_, _, rfl, rfl, rfl, by decide⟩

/-- C13, amended. On a successful odometry build (motors, odometry, skid-steer) exactly one
kinematics model is constructed and the controller gets it. When the builder holds no
estimator, the estimator it constructs is built over that same model. When the builder holds
a custom estimator, no estimator is constructed and the custom one is handed to the
controller unchanged, with whatever model it was constructed over. -/
theorem build_odometry_model (b : ChassisControllerBuilder)
    (hm : b.hasMotors = true) (ho : b.hasOdom = true) (hs : b.isSkidSteer = true) :
    ∃ c o, b.build.result = Except.ok c ∧ c.odometry = some o ∧
      c.model = ChassisModel.skidSteer b.makeSkidSteerModel ∧
      modelsMade b.build.events = [c.model] ∧
      (b.odometry = none →
        odometryMade b.build.events = [o] ∧ ChassisModel.skidSteer o.model = c.model) ∧
      (∀ custom, b.odometry = some custom →
        odometryMade b.build.events = [] ∧ o = custom) := by
  cases hg : b.hasGains <;> cases hod : b.odometry <;> cases hmid : b.middleSensor <;>
    simp [build, buildOCCPID, buildOCCI, hm, ho, hs, hg, hod, hmid, modelsMade, odometryMade,
      defaultOdometry, ChassisController.odometry, ChassisController.model, Odometry.model]

/-- C13, amended, at a concrete builder: two motors and odometry thresholds, no estimator. -/
theorem build_odometry_model_witness :
    (runCalls sample [.withMotors ⟨1⟩ ⟨2⟩, .withOdometry 0 0 0]).hasOdom = true ∧
    ∃ c o, (runCalls sample [.withMotors ⟨1⟩ ⟨2⟩, .withOdometry 0 0 0]).build.result
        = Except.ok c ∧
      c.odometry = some o ∧ ChassisModel.skidSteer o.model = c.model :=
  ⟨by decide,
   match build_odometry_model (runCalls sample [.withMotors ⟨1⟩ ⟨2⟩, .withOdometry 0 0 0])
     (by decide) (by decide) (by decide) with
   | ⟨c, o, h1, h2, _, _, h5, _⟩ => ⟨c, o, h1, h2, (h5 (by decide)).2⟩⟩

/-- Every kinematics model `build()` constructs is given the members `leftSensor` and
`rightSensor`. -/
theorem build_hands_sensors (b : ChassisControllerBuilder) :
    ∀ m ∈ modelsMade b.build.events, m.leftEnc = b.leftSensor ∧ m.rightEnc = b.rightSensor := by
  cases hm : b.hasMotors <;> cases ho : b.hasOdom <;> cases hg : b.hasGains <;>
    cases hs : b.isSkidSteer <;> cases hmid : b.middleSensor <;> cases hod : b.odometry <;>
    simp [build, buildOCCPID, buildOCCI, buildCCPID, buildCCI, modelsMade, makeSkidSteerModel,
      makeXDriveModel, ChassisModel.leftEnc, ChassisModel.rightEnc, SkidSteerModel.leftEnc,
      SkidSteerModel.rightEnc, hm, ho, hg, hs, hmid, hod]

/-- Once the user has set sensors, a call other than `withSensors` leaves them. -/
theorem run_sensors_set (c : Call) (b : ChassisControllerBuilder)
    (hc : c.isWithSensors = false) (hb : b.sensorsSetByUser = true) :
    (c.run b).builder.sensorsSetByUser = true ∧
    (c.run b).builder.leftSensor = b.leftSensor ∧
    (c.run b).builder.rightSensor = b.rightSensor := by
  cases c <;> simp_all [Call.run, Call.isWithSensors, Outcome.pure,
    ChassisControllerBuilder.withMotors, ChassisControllerBuilder.withMotors4,
    ChassisControllerBuilder.withGains, ChassisControllerBuilder.withGains3,
    ChassisControllerBuilder.withDerivativeFilters, ChassisControllerBuilder.withTimeUtilFactory,
    ChassisControllerBuilder.withOdometry, ChassisControllerBuilder.withOdometryCustom,
    ChassisControllerBuilder.withGearset, ChassisControllerBuilder.withDimensions,
    ChassisControllerBuilder.withMaxVelocity, ChassisControllerBuilder.withMaxVoltage,
    ChassisControllerBuilder.withLogger]
  all_goals (repeat split) <;> simp_all

/-- While the user has set no sensors, a call other than `withSensors` keeps it that way, and
a call that is not `withMotors` either leaves the sensors as they are. -/
theorem run_sensors_unset (c : Call) (b : ChassisControllerBuilder)
    (hc : c.isWithSensors = false) (hb : b.sensorsSetByUser = false) :
    (c.run b).builder.sensorsSetByUser = false ∧
    (c.isWithMotors = false →
      (c.run b).builder.leftSensor = b.leftSensor ∧
      (c.run b).builder.rightSensor = b.rightSensor) := by
  cases c <;> simp_all [Call.run, Call.isWithSensors, Call.isWithMotors, Outcome.pure,
    ChassisControllerBuilder.withMotors, ChassisControllerBuilder.withMotors4,
    ChassisControllerBuilder.withGains, ChassisControllerBuilder.withGains3,
    ChassisControllerBuilder.withDerivativeFilters, ChassisControllerBuilder.withTimeUtilFactory,
    ChassisControllerBuilder.withOdometry, ChassisControllerBuilder.withOdometryCustom,
    ChassisControllerBuilder.withGearset, ChassisControllerBuilder.withDimensions,
    ChassisControllerBuilder.withMaxVelocity, ChassisControllerBuilder.withMaxVoltage,
    ChassisControllerBuilder.withLogger]
  all_goals (repeat split) <;> simp_all

/-- After the user has set sensors, calls other than `withSensors` leave them. -/
theorem runCalls_sensors_set (calls : List Call) (b : ChassisControllerBuilder)
    (hb : b.sensorsSetByUser = true) (hc : ∀ c ∈ calls, c.isWithSensors = false) :
    (runCalls b calls).leftSensor = b.leftSensor ∧
    (runCalls b calls).rightSensor = b.rightSensor := by
  induction calls generalizing b with
  | nil => exact ⟨rfl, rfl⟩
  | cons c cs ih =>
    obtain ⟨h1, h2, h3⟩ := run_sensors_set c b (hc c (List.mem_cons_self c cs)) hb
    obtain ⟨k1, k2⟩ := ih _ h1 (fun d hd => hc d (List.mem_cons_of_mem c hd))
    rw [runCalls_cons, k1, k2, h2, h3]
    exact ⟨rfl, rfl⟩

/-- Without a `withSensors` call the flag `sensorsSetByUser` stays unset. -/
theorem runCalls_sensorsSetByUser_unset (calls : List Call) (b : ChassisControllerBuilder)
    (hb : b.sensorsSetByUser = false) (hc : ∀ c ∈ calls, c.isWithSensors = false) :
    (runCalls b calls).sensorsSetByUser = false := by
  induction calls generalizing b with
  | nil => exact hb
  | cons c cs ih =>
    rw [runCalls_cons]
    exact ih _ (run_sensors_unset c b (hc c (List.mem_cons_self c cs)) hb).1
      (fun d hd => hc d (List.mem_cons_of_mem c hd))

/-- While no sensors are set by the user, calls that are neither `withSensors` nor
`withMotors` leave the sensors as they are. -/
theorem runCalls_sensors_unset (calls : List Call) (b : ChassisControllerBuilder)
    (hb : b.sensorsSetByUser = false)
    (hc : ∀ c ∈ calls, c.isWithSensors = false ∧ c.isWithMotors = false) :
    (runCalls b calls).leftSensor = b.leftSensor ∧
    (runCalls b calls).rightSensor = b.rightSensor := by
  induction calls generalizing b with
  | nil => exact ⟨rfl, rfl⟩
  | cons c cs ih =>
    obtain ⟨h1, h2⟩ := run_sensors_unset c b (hc c (List.mem_cons_self c cs)).1 hb
    obtain ⟨h3, h4⟩ := h2 (hc c (List.mem_cons_self c cs)).2
    obtain ⟨k1, k2⟩ := ih _ h1 (fun d hd => hc d (List.mem_cons_of_mem c hd))
    rw [runCalls_cons, k1, k2, h3, h4]
    exact ⟨rfl, rfl⟩

/-- C16. The sensors used at `build()` are those of the last `withSensors` call (either
overload), whatever calls, `withMotors` included, come before or after it. If the builder
starts without user sensors and `withSensors` is never called, they are the integrated
encoders of the motors of the last `withMotors` call: left and right for the two-motor
overload, top-left and top-right for the four-motor overload. -/
theorem build_sensors_rule (b0 : ChassisControllerBuilder)
    (h0 : b0.sensorsSetByUser = false) :
    (∀ (pre post : List Call) (l r : SensorPtr), (∀ c ∈ post, c.isWithSensors = false) →
      usesSensors (runCalls b0 (pre ++ Call.withSensors l r :: post)) l r) ∧
    (∀ (pre post : List Call) (l r m : SensorPtr), (∀ c ∈ post, c.isWithSensors = false) →
      usesSensors (runCalls b0 (pre ++ Call.withSensors3 l r m :: post)) l r) ∧
    (∀ (pre post : List Call) (ileft iright : AbstractMotor),
      (∀ c ∈ pre, c.isWithSensors = false) →
      (∀ c ∈ post, c.isWithSensors = false ∧ c.isWithMotors = false) →
      usesSensors (runCalls b0 (pre ++ Call.withMotors ileft iright :: post))
        ileft.getEncoder iright.getEncoder) ∧
    (∀ (pre post : List Call) (tl tr br bl : AbstractMotor),
      (∀ c ∈ pre, c.isWithSensors = false) →
      (∀ c ∈ post, c.isWithSensors = false ∧ c.isWithMotors = false) →
      usesSensors (runCalls b0 (pre ++ Call.withMotors4 tl tr br bl :: post))
        tl.getEncoder tr.getEncoder) := by
  refine ⟨fun pre post l r hc => ?_, fun pre post l r m hc => ?_,
    fun pre post ml mr hpre hpost => ?_, fun pre post tl tr br bl hpre hpost => ?_⟩
  · obtain ⟨k1, k2⟩ := runCalls_sensors_set post
      ((Call.withSensors l r).run (runCalls b0 pre)).builder
      (by simp [Call.run, Outcome.pure, ChassisControllerBuilder.withSensors]) hc
    have e1 : (runCalls b0 (pre ++ Call.withSensors l r :: post)).leftSensor = l := by
      rw [runCalls_append, runCalls_cons, k1]
      simp [Call.run, Outcome.pure, ChassisControllerBuilder.withSensors]
    have e2 : (runCalls b0 (pre ++ Call.withSensors l r :: post)).rightSensor = r := by
      rw [runCalls_append, runCalls_cons, k2]
      simp [Call.run, Outcome.pure, ChassisControllerBuilder.withSensors]
    refine ⟨e1, e2, fun md hmd => ?_⟩
    have h := build_hands_sensors _ md hmd
    rw [e1, e2] at h
    exact h
  · obtain ⟨k1, k2⟩ := runCalls_sensors_set post
      ((Call.withSensors3 l r m).run (runCalls b0 pre)).builder
      (by simp [Call.run, Outcome.pure, ChassisControllerBuilder.withSensors3]) hc
    have e1 : (runCalls b0 (pre ++ Call.withSensors3 l r m :: post)).leftSensor = l := by
      rw [runCalls_append, runCalls_cons, k1]
      simp [Call.run, Outcome.pure, ChassisControllerBuilder.withSensors3]
    have e2 : (runCalls b0 (pre ++ Call.withSensors3 l r m :: post)).rightSensor = r := by
      rw [runCalls_append, runCalls_cons, k2]
      simp [Call.run, Outcome.pure, ChassisControllerBuilder.withSensors3]
    refine ⟨e1, e2, fun md hmd => ?_⟩
    have h := build_hands_sensors _ md hmd
    rw [e1, e2] at h
    exact h
  · have hflag := runCalls_sensorsSetByUser_unset pre b0 h0 hpre
    have hflag2 : ((Call.withMotors ml mr).run (runCalls b0 pre)).builder.sensorsSetByUser
        = false := by
      simp [Call.run, Outcome.pure, ChassisControllerBuilder.withMotors, hflag]
    obtain ⟨k1, k2⟩ := runCalls_sensors_unset post _ hflag2 hpost
    have e1 : (runCalls b0 (pre ++ Call.withMotors ml mr :: post)).leftSensor
        = ml.getEncoder := by
      rw [runCalls_append, runCalls_cons, k1]
      simp [Call.run, Outcome.pure, ChassisControllerBuilder.withMotors, hflag]
    have e2 : (runCalls b0 (pre ++ Call.withMotors ml mr :: post)).rightSensor
        = mr.getEncoder := by
      rw [runCalls_append, runCalls_cons, k2]
      simp [Call.run, Outcome.pure, ChassisControllerBuilder.withMotors, hflag]
    refine ⟨e1, e2, fun md hmd => ?_⟩
    have h := build_hands_sensors _ md hmd
    rw [e1, e2] at h
    exact h
  · have hflag := runCalls_sensorsSetByUser_unset pre b0 h0 hpre
    have hflag2 : ((Call.withMotors4 tl tr br bl).run (runCalls b0 pre)).builder.sensorsSetByUser
        = false := by
      simp [Call.run, Outcome.pure, ChassisControllerBuilder.withMotors4, hflag]
    obtain ⟨k1, k2⟩ := runCalls_sensors_unset post _ hflag2 hpost
    have e1 : (runCalls b0 (pre ++ Call.withMotors4 tl tr br bl :: post)).leftSensor
        = tl.getEncoder := by
      rw [runCalls_append, runCalls_cons, k1]
      simp [Call.run, Outcome.pure, ChassisControllerBuilder.withMotors4, hflag]
    have e2 : (runCalls b0 (pre ++ Call.withMotors4 tl tr br bl :: post)).rightSensor
        = tr.getEncoder := by
      rw [runCalls_append, runCalls_cons, k2]
      simp [Call.run, Outcome.pure, ChassisControllerBuilder.withMotors4, hflag]
    refine ⟨e1, e2, fun md hmd => ?_⟩
    have h := build_hands_sensors _ md hmd
    rw [e1, e2] at h
    exact h

/-- C16, at a concrete builder: `withSensors` followed by `withMotors`; the model gets the
sensors of the user, not the encoders of the motors. -/
theorem build_sensors_rule_witness :
    sample.sensorsSetByUser = false ∧
    usesSensors (runCalls sample ([] ++ Call.withSensors (some (.external 1))
        (some (.external 2)) :: [.withMotors ⟨1⟩ ⟨2⟩]))
      (some (.external 1)) (some (.external 2)) ∧
    modelsMade (runCalls sample ([] ++ Call.withSensors (some (.external 1))
        (some (.external 2)) :: [.withMotors ⟨1⟩ ⟨2⟩])).build.events ≠ [] :=
  ⟨by decide,
   (build_sensors_rule sample (by decide)).1 [] [.withMotors ⟨1⟩ ⟨2⟩]
     (some (.external 1)) (some (.external 2)) (by decide),
   by decide⟩

/-- A configuration call other than `withMotors` leaves the layout flag and both motor sets
as they are. -/
theorem run_preserves_motors (c : Call) (b : ChassisControllerBuilder)
    (hc : c.isWithMotors = false) :
    (c.run b).builder.isSkidSteer = b.isSkidSteer ∧
    (c.run b).builder.skidSteerMotors = b.skidSteerMotors ∧
    (c.run b).builder.xDriveMotors = b.xDriveMotors := by
  cases c <;> simp_all [Call.run, Call.isWithMotors, Outcome.pure,
    ChassisControllerBuilder.withSensors, ChassisControllerBuilder.withSensors3,
    ChassisControllerBuilder.withGains, ChassisControllerBuilder.withGains3,
    ChassisControllerBuilder.withDerivativeFilters, ChassisControllerBuilder.withTimeUtilFactory,
    ChassisControllerBuilder.withOdometry, ChassisControllerBuilder.withOdometryCustom,
    ChassisControllerBuilder.withGearset, ChassisControllerBuilder.withDimensions,
    ChassisControllerBuilder.withMaxVelocity, ChassisControllerBuilder.withMaxVoltage,
    ChassisControllerBuilder.withLogger]
  all_goals (repeat split) <;> simp_all

/-- A sequence of configuration calls without `withMotors` leaves the layout flag and both
motor sets as they are. -/
theorem runCalls_preserves_motors (calls : List Call) (b : ChassisControllerBuilder)
    (hc : ∀ c ∈ calls, c.isWithMotors = false) :
    (runCalls b calls).isSkidSteer = b.isSkidSteer ∧
    (runCalls b calls).skidSteerMotors = b.skidSteerMotors ∧
    (runCalls b calls).xDriveMotors = b.xDriveMotors := by
  induction calls generalizing b with
  | nil => exact ⟨rfl, rfl, rfl⟩
  | cons c cs ih =>
    obtain ⟨h1, h2, h3⟩ := run_preserves_motors c b (hc c (List.mem_cons_self c cs))
    obtain ⟨k1, k2, k3⟩ := ih (c.run b).builder (fun d hd => hc d (List.mem_cons_of_mem c hd))
    rw [runCalls_cons, k1, k2, k3, h1, h2, h3]
    exact ⟨rfl, rfl, rfl⟩

/-- The kinematics models `build()` constructs on a builder with motors: one skid-steer
model on a skid-steer layout, one X-drive model on an X-drive layout without odometry, none
on an X-drive layout with odometry. -/
theorem build_models_made (b : ChassisControllerBuilder) (hm : b.hasMotors = true) :
    (b.isSkidSteer = true →
      modelsMade b.build.events = [ChassisModel.skidSteer b.makeSkidSteerModel]) ∧
    (b.isSkidSteer = false → b.hasOdom = false →
      modelsMade b.build.events = [ChassisModel.xDrive b.makeXDriveModel]) ∧
    (b.isSkidSteer = false → b.hasOdom = true →
      modelsMade b.build.events = [] ∧ b.build.result = Except.error skidSteerOnlyMsg) := by
  cases ho : b.hasOdom <;> cases hg : b.hasGains <;> cases hs : b.isSkidSteer <;>
    cases hod : b.odometry <;>
    simp [build, buildOCCPID, buildOCCI, buildCCPID, buildCCI, modelsMade, hm, ho, hg, hs, hod]

/-- C17, as stated, fails: after the four-motor `withMotors` and `withOdometry`, the sequence
contains a `withMotors` call, but `build()` throws and constructs no kinematics model. -/
theorem build_xdrive_odometry_no_model :
    (∃ c ∈ [Call.withMotors4 ⟨1⟩ ⟨2⟩ ⟨3⟩ ⟨4⟩, Call.withOdometry 0 0 0],
      c.isWithMotors = true) ∧
    modelsMade (runCalls sample
      [.withMotors4 ⟨1⟩ ⟨2⟩ ⟨3⟩ ⟨4⟩, .withOdometry 0 0 0]).build.events = [] ∧
    (runCalls sample [.withMotors4 ⟨1⟩ ⟨2⟩ ⟨3⟩ ⟨4⟩, .withOdometry 0 0 0]).build.result
      = Except.error skidSteerOnlyMsg :=
  ⟨by decide, by decide, rfl⟩

/-- C17, amended. Take a sequence of calls whose last `withMotors` call is followed only by
other setters. If that call is the two-motor overload, `build()` constructs exactly one
kinematics model, a skid-steer model over the two motors of that call, and it is a
`ThreeEncoderSkidSteerModel` exactly when a middle sensor is present. If it is the
four-motor overload and odometry was not requested, `build()` constructs exactly one model,
an X-drive model over the four motors of that call. If it is the four-motor overload and
odometry was requested, `build()` throws and constructs no model. -/
theorem build_model_rule (b0 : ChassisControllerBuilder) (pre post : List Call)
    (hpost : ∀ c ∈ post, c.isWithMotors = false) :
    (∀ l r : AbstractMotor, ∃ m,
      modelsMade (runCalls b0 (pre ++ Call.withMotors l r :: post)).build.events
        = [ChassisModel.skidSteer m] ∧
      m.left = some l ∧ m.right = some r ∧
      (m.isThreeEncoder = true ↔
        (runCalls b0 (pre ++ Call.withMotors l r :: post)).middleSensor ≠ none)) ∧
    (∀ tl tr br bl : AbstractMotor,
      ((runCalls b0 (pre ++ Call.withMotors4 tl tr br bl :: post)).hasOdom = false →
        ∃ m, modelsMade (runCalls b0 (pre ++ Call.withMotors4 tl tr br bl :: post)).build.events
            = [ChassisModel.xDrive m] ∧
          m.topLeft = some tl ∧ m.topRight = some tr ∧
          m.bottomRight = some br ∧ m.bottomLeft = some bl) ∧
      ((runCalls b0 (pre ++ Call.withMotors4 tl tr br bl :: post)).hasOdom = true →
        modelsMade (runCalls b0 (pre ++ Call.withMotors4 tl tr br bl :: post)).build.events
          = [] ∧
        (runCalls b0 (pre ++ Call.withMotors4 tl tr br bl :: post)).build.result
          = Except.error skidSteerOnlyMsg)) := by
  constructor
  · intro l r
    have hb : runCalls b0 (pre ++ Call.withMotors l r :: post)
        = runCalls ((Call.withMotors l r).run (runCalls b0 pre)).builder post := by
      rw [runCalls_append, runCalls_cons]
    obtain ⟨k1, k2, _⟩ := runCalls_preserves_motors post
      ((Call.withMotors l r).run (runCalls b0 pre)).builder hpost
    have km := runCalls_hasMotors post ((Call.withMotors l r).run (runCalls b0 pre)).builder hpost
    rw [← hb] at k1 k2 km
    have hm : (runCalls b0 (pre ++ Call.withMotors l r :: post)).hasMotors = true := by
      rw [km]; simp only [Call.run, Outcome.pure, ChassisControllerBuilder.withMotors]; split <;> rfl
    have hs : (runCalls b0 (pre ++ Call.withMotors l r :: post)).isSkidSteer = true := by
      rw [k1]; simp only [Call.run, Outcome.pure, ChassisControllerBuilder.withMotors]; split <;> rfl
    have hmot : (runCalls b0 (pre ++ Call.withMotors l r :: post)).skidSteerMotors
        = { left := some l, right := some r } := by
      rw [k2]; simp only [Call.run, Outcome.pure, ChassisControllerBuilder.withMotors]; split <;> rfl
    refine ⟨_, (build_models_made _ hm).1 hs, ?_, ?_, ?_⟩
    · cases hmid : (runCalls b0 (pre ++ Call.withMotors l r :: post)).middleSensor <;>
        simp [makeSkidSteerModel, hmid, hmot, SkidSteerModel.left]
    · cases hmid : (runCalls b0 (pre ++ Call.withMotors l r :: post)).middleSensor <;>
        simp [makeSkidSteerModel, hmid, hmot, SkidSteerModel.right]
    · cases hmid : (runCalls b0 (pre ++ Call.withMotors l r :: post)).middleSensor <;>
        simp [makeSkidSteerModel, hmid, SkidSteerModel.isThreeEncoder]
  · intro tl tr br bl
    have hb : runCalls b0 (pre ++ Call.withMotors4 tl tr br bl :: post)
        = runCalls ((Call.withMotors4 tl tr br bl).run (runCalls b0 pre)).builder post := by
      rw [runCalls_append, runCalls_cons]
    obtain ⟨k1, _, k3⟩ := runCalls_preserves_motors post
      ((Call.withMotors4 tl tr br bl).run (runCalls b0 pre)).builder hpost
    have km := runCalls_hasMotors post
      ((Call.withMotors4 tl tr br bl).run (runCalls b0 pre)).builder hpost
    rw [← hb] at k1 k3 km
    have hm : (runCalls b0 (pre ++ Call.withMotors4 tl tr br bl :: post)).hasMotors = true := by
      rw [km]; simp only [Call.run, Outcome.pure, ChassisControllerBuilder.withMotors4]
      split <;> rfl
    have hs : (runCalls b0 (pre ++ Call.withMotors4 tl tr br bl :: post)).isSkidSteer
        = false := by
      rw [k1]; simp only [Call.run, Outcome.pure, ChassisControllerBuilder.withMotors4]
      split <;> rfl
    have hmot : (runCalls b0 (pre ++ Call.withMotors4 tl tr br bl :: post)).xDriveMotors
        = { topLeft := some tl, topRight := some tr, bottomRight := some br,
            bottomLeft := some bl } := by
      rw [k3]; simp only [Call.run, Outcome.pure, ChassisControllerBuilder.withMotors4]
      split <;> rfl
    refine ⟨fun ho => ⟨_, (build_models_made _ hm).2.1 hs ho, ?_⟩,
      fun ho => (build_models_made _ hm).2.2 hs ho⟩
    simp [makeXDriveModel, hmot]

/-- C17, amended, at a concrete builder: the two-motor overload after the four-motor one, then
`withGearset`; one skid-steer model over motors 5 and 6 is built. -/
theorem build_model_rule_witness :
    (∀ c ∈ [Call.withGearset ⟨⟨600⟩, 1⟩], c.isWithMotors = false) ∧
    ∃ m, modelsMade (runCalls sample ([.withMotors4 ⟨1⟩ ⟨2⟩ ⟨3⟩ ⟨4⟩] ++
        Call.withMotors ⟨5⟩ ⟨6⟩ :: [.withGearset ⟨⟨600⟩, 1⟩])).build.events
        = [ChassisModel.skidSteer m] ∧
      m.left = some ⟨5⟩ ∧ m.right = some ⟨6⟩ :=
  ⟨by decide,
   match (build_model_rule sample [.withMotors4 ⟨1⟩ ⟨2⟩ ⟨3⟩ ⟨4⟩] [.withGearset ⟨⟨600⟩, 1⟩]
     (by decide)).1 ⟨5⟩ ⟨6⟩ with
   | ⟨m, h1, h2, h3, _⟩ => ⟨m, h1, h2, h3⟩⟩

/-- On an X-drive builder with motors, without odometry and without gains, `build()` hands
the members `skidSteerMotors.left` and `skidSteerMotors.right` to its two position
controllers. -/
theorem build_xdrive_integrated_motors (b : ChassisControllerBuilder)
    (hm : b.hasMotors = true) (ho : b.hasOdom = false) (hg : b.hasGains = false)
    (hs : b.isSkidSteer = false) :
    ∃ c, b.build.result = Except.ok c ∧
      c.model = ChassisModel.xDrive b.makeXDriveModel ∧
      c.asyncControllers.map (fun a => a.motor)
        = [b.skidSteerMotors.left, b.skidSteerMotors.right] := by
  simp [build, buildCCI, hm, ho, hg, hs, ChassisController.model,
    ChassisController.asyncControllers, asyncController]

/-- C18. The code at the failing input: after the four-motor `withMotors` alone, `build()`
returns an integrated controller over an X-drive model with motors 1 to 4, but both position
controllers hold a null motor pointer, which is not one of the four motors supplied. -/
theorem build_xdrive_integrated_null_motors :
    ∃ c, (runCalls sample [.withMotors4 ⟨1⟩ ⟨2⟩ ⟨3⟩ ⟨4⟩]).build.result = Except.ok c ∧
      c.strategy = Strategy.integrated ∧
      c.model = ChassisModel.xDrive
        { topLeft := some ⟨1⟩, topRight := some ⟨2⟩, bottomRight := some ⟨3⟩,
          bottomLeft := some ⟨4⟩,
          leftEnc := some (.integratedEncoder ⟨1⟩), rightEnc := some (.integratedEncoder ⟨2⟩),
          maxVelocity := 200, maxVoltage := 12000 } ∧
      c.asyncControllers.map (fun a => a.motor) = [none, none] ∧
      (∀ a ∈ c.asyncControllers,
        a.motor ∉ (runCalls sample [.withMotors4 ⟨1⟩ ⟨2⟩ ⟨3⟩ ⟨4⟩]).xDriveMotors.toList) :=
  ⟨_, rfl, rfl, by decide, by decide, by decide⟩

/-- C19. `buildOdometry()` throws "No motors given" when no motors were supplied, otherwise
throws "No odometry information given" when odometry was not requested, each with its log
entry as the only event and the builder unchanged; in every other state its events, its
result and the builder it leaves are those of `build()`. -/
theorem buildOdometry_refines_build (b : ChassisControllerBuilder) :
    (b.hasMotors = false →
      b.buildOdometry.result = Except.error noMotorsMsg ∧
      b.buildOdometry.events = [Event.logError b.logger noMotorsMsg] ∧
      b.buildOdometry.builder = b) ∧
    (b.hasMotors = true → b.hasOdom = false →
      b.buildOdometry.result = Except.error noOdometryMsg ∧
      b.buildOdometry.events = [Event.logError b.logger noOdometryMsg] ∧
      b.buildOdometry.builder = b) ∧
    (b.hasMotors = true → b.hasOdom = true →
      b.buildOdometry.result = b.build.result ∧
      b.buildOdometry.events = b.build.events ∧
      b.buildOdometry.builder = b.build.builder) := by
  refine ⟨fun hm => ?_, fun hm ho => ?_, fun hm ho => ?_⟩
  · simp [buildOdometry, hm]
  · simp [buildOdometry, hm, ho]
  · simp [buildOdometry, build, hm, ho]

/-- C19, at a concrete builder: two motors, gains and odometry. -/
theorem buildOdometry_refines_build_witness :
    (runCalls sample [.withMotors ⟨1⟩ ⟨2⟩, .withGains ⟨1, 0, 0⟩ ⟨1, 0, 0⟩,
      .withOdometry 0 0 0]).hasOdom = true ∧
    (runCalls sample [.withMotors ⟨1⟩ ⟨2⟩, .withGains ⟨1, 0, 0⟩ ⟨1, 0, 0⟩,
      .withOdometry 0 0 0]).buildOdometry.result =
    (runCalls sample [.withMotors ⟨1⟩ ⟨2⟩, .withGains ⟨1, 0, 0⟩ ⟨1, 0, 0⟩,
      .withOdometry 0 0 0]).build.result ∧
    sample.buildOdometry.result = Except.error noMotorsMsg ∧
    (runCalls sample [.withMotors ⟨1⟩ ⟨2⟩]).buildOdometry.result
      = Except.error noOdometryMsg :=
  ⟨by decide,
   ((buildOdometry_refines_build (runCalls sample [.withMotors ⟨1⟩ ⟨2⟩,
      .withGains ⟨1, 0, 0⟩ ⟨1, 0, 0⟩, .withOdometry 0 0 0])).2.2 (by decide) (by decide)).1,
   ((buildOdometry_refines_build sample).1 (by decide)).1,
   ((buildOdometry_refines_build (runCalls sample [.withMotors ⟨1⟩ ⟨2⟩])).2.1
      (by decide) (by decide)).1⟩

/-- C20. A successful `build()` changes the builder only in that it empties the member
`odometry` on the odometry paths and the three derivative filters on the PID paths. A second
`build()` on the builder it leaves succeeds with the same strategy and the same kinematics
model; every PID controller of the second controller gets a null derivative filter; on the
odometry paths the second build constructs the default estimator of the builder, also when
the first controller was given a custom one. -/
theorem build_frame (b : ChassisControllerBuilder) (c : ChassisController)
    (hres : b.build.result = Except.ok c) :
    b.build.builder =
      { b with odometry := if b.hasOdom then none else b.odometry,
               distanceFilter := if b.hasGains then none else b.distanceFilter,
               angleFilter := if b.hasGains then none else b.angleFilter,
               turnFilter := if b.hasGains then none else b.turnFilter } ∧
    ∃ c2, b.build.builder.build.result = Except.ok c2 ∧
      c2.strategy = c.strategy ∧ c2.model = c.model ∧
      (∀ p ∈ c2.pidControllers, p.derivativeFilter = none) ∧
      (b.hasOdom = true →
        c2.odometry = some (b.defaultOdometry b.makeSkidSteerModel) ∧
        odometryMade b.build.builder.build.events
          = [b.defaultOdometry b.makeSkidSteerModel]) := by
  cases hm : b.hasMotors <;> cases ho : b.hasOdom <;> cases hg : b.hasGains <;>
    cases hs : b.isSkidSteer <;>
    simp [build, buildOCCPID, buildOCCI, buildCCPID, buildCCI, hm, ho, hg, hs] at hres <;>
    subst hres <;>
    simp [build, buildOCCPID, buildOCCI, buildCCPID, buildCCI, hm, ho, hg, hs,
      ChassisController.strategy, ChassisController.model, ChassisController.pidControllers,
      ChassisController.odometry, pidControllers, makeSkidSteerModel, makeXDriveModel,
      defaultOdometry, odometryMade] <;>
    (cases b; simp_all)

/-- C20, at a concrete builder: two motors, gains, three derivative filters and a custom
estimator. The first controller gets the custom estimator; the second build succeeds, its PID
controllers have null filters and its estimator is the default one. -/
theorem build_frame_witness :
    (∃ c, (runCalls sample [.withMotors ⟨1⟩ ⟨2⟩, .withGains ⟨1, 0, 0⟩ ⟨1, 0, 0⟩,
        .withDerivativeFilters (some 1) (some 2) (some 3),
        .withOdometryCustom (some (.other 7 (.skidSteerModel none none none none 0 0))) 0 0]
        ).build.result = Except.ok c ∧
      c.odometry = some (.other 7 (.skidSteerModel none none none none 0 0)) ∧
      c.pidControllers.map (fun p => p.derivativeFilter) = [some 1, some 3, some 2]) ∧
    ∃ c2, (runCalls sample [.withMotors ⟨1⟩ ⟨2⟩, .withGains ⟨1, 0, 0⟩ ⟨1, 0, 0⟩,
        .withDerivativeFilters (some 1) (some 2) (some 3),
        .withOdometryCustom (some (.other 7 (.skidSteerModel none none none none 0 0))) 0 0]
        ).build.builder.build.result = Except.ok c2 ∧
      c2.strategy = Strategy.odomPID ∧
      (∀ p ∈ c2.pidControllers, p.derivativeFilter = none) ∧
      c2.odometry = some ((runCalls sample [.withMotors ⟨1⟩ ⟨2⟩, .withGains ⟨1, 0, 0⟩ ⟨1, 0, 0⟩,
        .withDerivativeFilters (some 1) (some 2) (some 3),
        .withOdometryCustom (some (.other 7 (.skidSteerModel none none none none 0 0))) 0 0]
        ).defaultOdometry (.skidSteerModel (some ⟨1⟩) (some ⟨2⟩)
          (some (.integratedEncoder ⟨1⟩)) (some (.integratedEncoder ⟨2⟩)) 200 12000)) :=
  ⟨⟨_, rfl, rfl, by decide⟩,
   match build_frame (runCalls sample [.withMotors ⟨1⟩ ⟨2⟩, .withGains ⟨1, 0, 0⟩ ⟨1, 0, 0⟩,
        .withDerivativeFilters (some 1) (some 2) (some 3),
        .withOdometryCustom (some (.other 7 (.skidSteerModel none none none none 0 0))) 0 0])
      _ rfl with
   | ⟨_, c2, h1, h2, _, h4, h5⟩ => ⟨c2, h1, h2, h4, (h5 (by decide)).1⟩⟩

/-- The difference of two `uint32_t` values is the plain difference when it is not negative. -/
theorem sub32_of_le (a b : Nat) (hba : b ≤ a) (ha : a < 4294967296) : sub32 a b = a - b := by
  unfold sub32
  omega

/-- A call other than `repeat` leaves the repeat mark and does not return `true`. -/
theorem step_other_calls (t : Timer) (s : TimerStep)
    (hc : ∀ p, s.call ≠ TimerCall.repeatMs p) :
    (t.step s).2.repeatMark = t.repeatMark ∧ (t.step s).1 ≠ TimerValue.bool true := by
  obtain ⟨call, now1, now2⟩ := s
  cases call <;> simp [Timer.step, Timer.getDt, Timer.placeMark, Timer.placeHardMark,
    Timer.clearHardMark] at hc ⊢
  split <;> rfl

/-- One call on a timer whose repeat mark, when set, lies between `m0` and the clock: the mark
stays so, and a `repeat(ms)` that returns true does so at least `ms` after `m0` and clears
the mark. -/
theorem step_repeatMark (t : Timer) (s : TimerStep) (ms lo m0 : Nat)
    (hmark : t.repeatMark = 0 ∨ m0 ≤ t.repeatMark) (hle : t.repeatMark ≤ lo) (hm0 : m0 ≤ lo)
    (h1 : lo ≤ s.now1) (h2 : s.now1 ≤ s.now2) (hb : s.now2 < 4294967296)
    (hper : ∀ p, s.call = TimerCall.repeatMs p → p = ms) :
    (t.step s).2.repeatMark ≤ s.now2 ∧
    ((t.step s).2.repeatMark = 0 ∨ m0 ≤ (t.step s).2.repeatMark) ∧
    ((t.step s).1 = TimerValue.bool true →
      m0 + ms ≤ s.now2 ∧ (t.step s).2.repeatMark = 0) := by
  by_cases hrep : ∃ p, s.call = TimerCall.repeatMs p
  · obtain ⟨p, hp⟩ := hrep
    have hpm : p = ms := hper p hp
    subst hpm
    obtain ⟨call, now1, now2⟩ := s
    simp only at hp h1 h2 hb
    subst hp
    by_cases hz : t.repeatMark = 0
    · have hs : sub32 now2 now1 = now2 - now1 := sub32_of_le now2 now1 h2 hb
      by_cases htest : p ≤ now2 - now1
      · simp [Timer.step, Timer.repeat, hz, hs, htest]
        omega
      · simp [Timer.step, Timer.repeat, hz, hs, htest]
        omega
    · have hs : sub32 now2 t.repeatMark = now2 - t.repeatMark :=
        sub32_of_le now2 t.repeatMark (by omega) hb
      by_cases htest : p ≤ now2 - t.repeatMark
      · simp [Timer.step, Timer.repeat, hz, hs, htest]
        omega
      · simp [Timer.step, Timer.repeat, hz, hs, htest]
        omega
  · have hc : ∀ p, s.call ≠ TimerCall.repeatMs p := fun p hp => hrep ⟨p, hp⟩
    obtain ⟨k1, k2⟩ := step_other_calls t s hc
    rw [k1]
    exact ⟨by omega, hmark, fun h => absurd h k2⟩

/-- Every `true` of `repeat(ms)` in a sequence of calls comes at least `ms` after any clock
value `m0` that the repeat mark, when set, is not older than. -/
theorem repeatTrueTimes_lower (ms : Nat) (steps : List TimerStep) (t : Timer) (lo m0 : Nat)
    (hmark : t.repeatMark = 0 ∨ m0 ≤ t.repeatMark) (hle : t.repeatMark ≤ lo) (hm0 : m0 ≤ lo)
    (hord : clockOrdered lo steps) (hb : ∀ s ∈ steps, s.now2 < 4294967296)
    (hper : ∀ s ∈ steps, ∀ p, s.call = TimerCall.repeatMs p → p = ms) :
    ∀ x ∈ repeatTrueTimes t steps, m0 + ms ≤ x := by
  induction steps generalizing t lo with
  | nil => intro x hx; cases hx
  | cons s rest ih =>
    obtain ⟨h1, h2, h3⟩ := hord
    obtain ⟨k1, k2, k3⟩ := step_repeatMark t s ms lo m0 hmark hle hm0 h1 h2
      (hb s (List.mem_cons_self s rest)) (hper s (List.mem_cons_self s rest))
    intro x hx
    simp only [repeatTrueTimes, List.mem_append] at hx
    rcases hx with hx | hx
    · split at hx
      · rename_i htrue
        simp only [List.mem_singleton] at hx
        rw [hx]
        exact (k3 htrue).1
      · cases hx
    · exact ih (t.step s).2 s.now2 k2 k1 (by omega) h3
        (fun d hd => hb d (List.mem_cons_of_mem s hd))
        (fun d hd => hper d (List.mem_cons_of_mem s hd)) x hx

/-- Any two `true` results of `repeat(ms)` in a sequence of calls with a clock that never
decreases are at least `ms` apart. -/
theorem repeatTrueTimes_pairwise (ms : Nat) (steps : List TimerStep) (t : Timer) (lo : Nat)
    (hle : t.repeatMark ≤ lo)
    (hord : clockOrdered lo steps) (hb : ∀ s ∈ steps, s.now2 < 4294967296)
    (hper : ∀ s ∈ steps, ∀ p, s.call = TimerCall.repeatMs p → p = ms) :
    (repeatTrueTimes t steps).Pairwise (fun x y => x + ms ≤ y) := by
  induction steps generalizing t lo with
  | nil => exact List.Pairwise.nil
  | cons s rest ih =>
    obtain ⟨h1, h2, h3⟩ := hord
    obtain ⟨k1, _, k3⟩ := step_repeatMark t s ms lo 0 (Or.inr (Nat.zero_le _)) hle
      (Nat.zero_le _) h1 h2 (hb s (List.mem_cons_self s rest))
      (hper s (List.mem_cons_self s rest))
    have hrest := ih (t.step s).2 s.now2 k1 h3
      (fun d hd => hb d (List.mem_cons_of_mem s hd))
      (fun d hd => hper d (List.mem_cons_of_mem s hd))
    simp only [repeatTrueTimes]
    split
    · rename_i htrue
      rw [List.singleton_append, List.pairwise_cons]
      refine ⟨?_, hrest⟩
      exact repeatTrueTimes_lower ms rest (t.step s).2 s.now2 s.now2
        (Or.inl (k3 htrue).2) k1 (Nat.le_refl _) h3
        (fun d hd => hb d (List.mem_cons_of_mem s hd))
        (fun d hd => hper d (List.mem_cons_of_mem s hd))
    · simpa using hrest

/-- C11, as stated, fails: on a timer constructed when the clock reads 5, the first call
`repeat(1)` whose two clock reads give 5 and then 6 returns true. -/
theorem repeat_first_call_true :
    clockOrdered 5 [⟨TimerCall.repeatMs 1, 5, 6⟩] ∧
    (Timer.repeat (Timer.init 5) 1 5 6).1 = true := by
  decide

/-- C11, amended. On a timer constructed at clock value `tc` and then used with any sequence
of calls whose 32-bit clock values never decrease and whose `repeat` calls all have the
period `ms`, any two `repeat(ms)` calls that return true are at least `ms` of clock time
apart. A call of `repeat(ms)` that finds the repeat mark cleared, as it is after construction
and after a true result, returns true exactly when the clock advances by at least `ms`
between the two clock reads inside that call; it returns false when both reads give the same
value and `ms > 0`. -/
theorem repeat_at_most_once_per_period (ms tc : Nat) (steps : List TimerStep)
    (hord : clockOrdered tc steps) (hb : ∀ s ∈ steps, s.now2 < 4294967296)
    (hper : ∀ s ∈ steps, ∀ p, s.call = TimerCall.repeatMs p → p = ms) :
    (repeatTrueTimes (Timer.init tc) steps).Pairwise (fun x y => x + ms ≤ y) ∧
    (Timer.init tc).repeatMark = 0 ∧
    (∀ (t : Timer) (now1 now2 : Nat), (Timer.repeat t ms now1 now2).1 = true →
      (Timer.repeat t ms now1 now2).2.repeatMark = 0) ∧
    (∀ (t : Timer) (now1 now2 : Nat), t.repeatMark = 0 → now1 ≤ now2 → now2 < 4294967296 →
      ((Timer.repeat t ms now1 now2).1 = true ↔ now1 + ms ≤ now2)) ∧
    (∀ (t : Timer) (now : Nat), t.repeatMark = 0 → now < 4294967296 → 0 < ms →
      (Timer.repeat t ms now now).1 = false) := by
  refine ⟨repeatTrueTimes_pairwise ms steps (Timer.init tc) tc (by simp [Timer.init]) hord hb
    hper, rfl, ?_, ?_, ?_⟩
  · intro t now1 now2
    simp only [Timer.repeat]
    split_ifs <;> simp
  · intro t now1 now2 hz h12 hb2
    have hs : sub32 now2 now1 = now2 - now1 := sub32_of_le now2 now1 h12 hb2
    by_cases htest : ms ≤ now2 - now1
    · simp [Timer.repeat, hz, hs, htest]; omega
    · simp [Timer.repeat, hz, hs, htest]; omega
  · intro t now hz hb2 hms
    have hs : sub32 now now = 0 := by rw [sub32_of_le now now (Nat.le_refl _) hb2]; omega
    have hnot : ¬ ms ≤ 0 := by omega
    simp [Timer.repeat, hz, hs, hnot]

/-- C11, amended, at a concrete run: a timer constructed at 1 and polled with `repeat(10)` at
clock values 1, 4, 11, 12, 25 returns true at 11 and at 25. -/
theorem repeat_at_most_once_per_period_witness :
    clockOrdered 1 [⟨.repeatMs 10, 1, 1⟩, ⟨.repeatMs 10, 4, 4⟩, ⟨.getDt, 7, 7⟩,
      ⟨.repeatMs 10, 11, 11⟩, ⟨.repeatMs 10, 12, 12⟩, ⟨.repeatMs 10, 25, 25⟩] ∧
    repeatTrueTimes (Timer.init 1) [⟨.repeatMs 10, 1, 1⟩, ⟨.repeatMs 10, 4, 4⟩, ⟨.getDt, 7, 7⟩,
      ⟨.repeatMs 10, 11, 11⟩, ⟨.repeatMs 10, 12, 12⟩, ⟨.repeatMs 10, 25, 25⟩] = [11, 25] ∧
    (repeatTrueTimes (Timer.init 1) [⟨.repeatMs 10, 1, 1⟩, ⟨.repeatMs 10, 4, 4⟩,
      ⟨.getDt, 7, 7⟩, ⟨.repeatMs 10, 11, 11⟩, ⟨.repeatMs 10, 12, 12⟩,
      ⟨.repeatMs 10, 25, 25⟩]).Pairwise (fun x y => x + 10 ≤ y) :=
  ⟨by decide, by decide,
   (repeat_at_most_once_per_period 10 1
     [⟨.repeatMs 10, 1, 1⟩, ⟨.repeatMs 10, 4, 4⟩, ⟨.getDt, 7, 7⟩,
      ⟨.repeatMs 10, 11, 11⟩, ⟨.repeatMs 10, 12, 12⟩, ⟨.repeatMs 10, 25, 25⟩]
     (by decide) (by decide)
     (by
       intro s hs p hp
       simp only [List.mem_cons, List.mem_singleton, List.mem_nil_iff, or_false] at hs
       rcases hs with rfl | rfl | rfl | rfl | rfl | rfl <;> simp_all)).1⟩

/-- The timer after a sequence of calls that starts with the call `s`. -/
theorem runSteps_cons (t : Timer) (s : TimerStep) (steps : List TimerStep) :
    t.runSteps (s :: steps) = (t.step s).2.runSteps steps := rfl

/-- No call changes the starting time, and only `placeMark` changes the mark. -/
theorem step_firstCalled_mark (t : Timer) (s : TimerStep) :
    (t.step s).2.firstCalled = t.firstCalled ∧
    (s.call ≠ TimerCall.placeMark → (t.step s).2.mark = t.mark) := by
  obtain ⟨call, now1, now2⟩ := s
  cases call <;> simp [Timer.step, Timer.getDt, Timer.placeMark, Timer.placeHardMark,
    Timer.clearHardMark, Timer.repeat]
  all_goals (repeat' split) <;> simp

/-- No sequence of calls changes the starting time, and a sequence without `placeMark`
leaves the mark. -/
theorem runSteps_firstCalled_mark (steps : List TimerStep) (t : Timer) :
    (t.runSteps steps).firstCalled = t.firstCalled ∧
    ((∀ s ∈ steps, s.call ≠ TimerCall.placeMark) → (t.runSteps steps).mark = t.mark) := by
  induction steps generalizing t with
  | nil => exact ⟨rfl, fun _ => rfl⟩
  | cons s rest ih =>
    obtain ⟨h1, h2⟩ := step_firstCalled_mark t s
    obtain ⟨k1, k2⟩ := ih (t.step s).2
    rw [runSteps_cons]
    refine ⟨by rw [k1, h1], fun hno => ?_⟩
    rw [k2 (fun d hd => hno d (List.mem_cons_of_mem s hd)), h2 (hno s (List.mem_cons_self s rest))]

/-- The `uint32_t` difference is the integer difference modulo 2^32. -/
theorem sub32_eq_emod (a b : Nat) :
    ((sub32 a b : Nat) : Int) = ((a : Int) - (b : Int)) % 4294967296 := by
  unfold sub32
  omega

/-- The `uint32_t` difference of two readings of a millisecond counter that wraps at 2^32 is
the time that passed between them, when less than 2^32 ms passed. -/
theorem sub32_wrapped (T0 T1 : Nat) (hle : T0 ≤ T1) (hlt : T1 - T0 < 4294967296) :
    sub32 (T1 % 4294967296) (T0 % 4294967296) = T1 - T0 := by
  unfold sub32
  omega

/-- C12. With a mark placed at the clock value `t0` (any value, so any 32-bit one) and not
placed again,
`getDtFromMark()` at the clock value `t1` returns `(t1 - t0) mod 2^32`, whatever other calls
are made in between; when the millisecond counter went from `T0` to `T1` with fewer than 2^32
ms between them, that is `T1 - T0`, also when the 32-bit counter wrapped in between. On a
timer constructed at the clock value `tc`, after any calls, `getDtFromStart()` at `t1` returns
`(t1 - tc) mod 2^32` and `getStartingTime()` returns `tc`. -/
theorem timer_elapsed (t : Timer) (tc t0 t1 : Nat) (steps others : List TimerStep)
    (hno : ∀ s ∈ steps, s.call ≠ TimerCall.placeMark) :
    ((((t.placeMark t0).runSteps steps).getDtFromMark t1 : Nat) : Int)
      = ((t1 : Int) - (t0 : Int)) % 4294967296 ∧
    (∀ T0 T1 : Nat, T0 ≤ T1 → T1 - T0 < 4294967296 →
      ((t.placeMark (T0 % 4294967296)).runSteps steps).getDtFromMark (T1 % 4294967296)
        = T1 - T0) ∧
    ((((Timer.init tc).runSteps others).getDtFromStart t1 : Nat) : Int)
      = ((t1 : Int) - (tc : Int)) % 4294967296 ∧
    (∀ T0 T1 : Nat, T0 ≤ T1 → T1 - T0 < 4294967296 →
      ((Timer.init (T0 % 4294967296)).runSteps others).getDtFromStart (T1 % 4294967296)
        = T1 - T0) ∧
    ((Timer.init tc).runSteps others).getStartingTime = tc := by
  have hmark : ∀ m, ((t.placeMark m).runSteps steps).mark = m := fun m =>
    (runSteps_firstCalled_mark steps (t.placeMark m)).2 hno
  have hfirst : ∀ c, ((Timer.init c).runSteps others).firstCalled = c := fun c =>
    (runSteps_firstCalled_mark others (Timer.init c)).1
  refine ⟨?_, ?_, ?_, ?_, ?_⟩
  · rw [Timer.getDtFromMark, hmark]
    exact sub32_eq_emod t1 t0
  · intro T0 T1 hle hlt
    rw [Timer.getDtFromMark, hmark]
    exact sub32_wrapped T0 T1 hle hlt
  · rw [Timer.getDtFromStart, hfirst]
    exact sub32_eq_emod t1 tc
  · intro T0 T1 hle hlt
    rw [Timer.getDtFromStart, hfirst]
    exact sub32_wrapped T0 T1 hle hlt
  · rw [Timer.getStartingTime, hfirst]

/-- C12, at a concrete run: a mark placed at 4294967290, `getDt` and `repeat` called, then
`getDtFromMark()` at the wrapped clock value 4 returns 10. -/
theorem timer_elapsed_witness :
    (∀ s ∈ [(⟨.getDt, 4294967292, 4294967292⟩ : TimerStep), ⟨.repeatMs 5, 1, 2⟩],
      s.call ≠ TimerCall.placeMark) ∧
    (((((Timer.init 7).placeMark 4294967290).runSteps
      [⟨.getDt, 4294967292, 4294967292⟩, ⟨.repeatMs 5, 1, 2⟩]).getDtFromMark 4 : Nat) : Int)
      = ((4 : Int) - 4294967290) % 4294967296 ∧
    ((4 : Int) - 4294967290) % 4294967296 = 10 :=
  ⟨by decide,
   (timer_elapsed (Timer.init 7) 7 4294967290 4
     [⟨.getDt, 4294967292, 4294967292⟩, ⟨.repeatMs 5, 1, 2⟩] []
     (by decide)).1,
   by decide⟩

/-- One `filter` call on a filter with `n` taps and its index in range: the taps stay `n`, the
index stays in range, the reading enters the window as its newest element while the oldest
leaves, and the output is the mean of the new window. -/
theorem AverageFilter.filter_window {n : Nat} (f : AverageFilter n) (r : ℚ)
    (hlen : f.data.length = n) (hidx : f.index < n) :
    (f.filter r).2.data.length = n ∧ (f.filter r).2.index < n ∧
    (f.filter r).2.window = f.window.tail ++ [r] ∧
    (f.filter r).1 = (f.filter r).2.window.sum / (n : ℚ) ∧
    (f.filter r).2.getOutput = (f.filter r).1 := by
  obtain ⟨data, index, output⟩ := f
  simp only at hlen hidx
  obtain ⟨A, x, B, rfl, hA⟩ : ∃ A x B, data = A ++ x :: B ∧ A.length = index := by
    refine ⟨data.take index, data[index], data.drop (index + 1), ?_, ?_⟩
    · rw [← List.drop_eq_getElem_cons, List.take_append_drop]
    · rw [List.length_take]; omega
  subst hA
  have hset : (A ++ x :: B).set A.length r = A ++ r :: B := by
    rw [List.set_append_right _ _ (Nat.le_refl _)]
    simp
  have hn : n = A.length + 1 + B.length := by
    rw [← hlen]; simp; omega
  refine ⟨?_, ?_, ?_, ?_, rfl⟩
  · simp [AverageFilter.filter, hset]; omega
  · simp only [AverageFilter.filter]; split <;> omega
  · have hd : List.drop (A.length + 1) A = [] := List.drop_eq_nil_of_le (by omega)
    have ht : List.take (A.length + 1) A = A := List.take_of_length_le (by omega)
    cases B with
    | nil =>
      have hwrap : n ≤ A.length + 1 := by simp at hn; omega
      simp [AverageFilter.filter, AverageFilter.window, hset, hwrap]
    | cons y B1 =>
      have hnow : ¬ n ≤ A.length + 1 := by simp at hn; omega
      simp [AverageFilter.filter, AverageFilter.window, hset, hnow,
        List.drop_append_eq_append_drop, List.take_append_eq_append_take, hd, ht]
  · simp only [AverageFilter.filter, AverageFilter.window]
    congr 1
    rw [List.sum_append, add_comm, ← List.sum_append, List.take_append_drop]

/-- Feeding readings to a filter with `n` taps and its index in range keeps both facts, and
the window afterwards is the old window followed by the readings, without as many of its
oldest elements as there were readings. -/
theorem AverageFilter.feed_window {n : Nat} (rs : List ℚ) (f : AverageFilter n)
    (hlen : f.data.length = n) (hidx : f.index < n) :
    (f.feed rs).data.length = n ∧ (f.feed rs).index < n ∧
    (f.feed rs).window = (f.window ++ rs).drop rs.length := by
  induction rs generalizing f with
  | nil => exact ⟨hlen, hidx, by simp [AverageFilter.feed]⟩
  | cons r rest ih =>
    obtain ⟨h1, h2, h3, _, _⟩ := f.filter_window r hlen hidx
    obtain ⟨k1, k2, k3⟩ := ih (f.filter r).2 h1 h2
    have hfeed : f.feed (r :: rest) = (f.filter r).2.feed rest := rfl
    rw [hfeed]
    refine ⟨k1, k2, ?_⟩
    rw [k3, h3]
    have hw : f.window.length = n := by
      simp only [AverageFilter.window, List.length_append, List.length_drop, List.length_take]
      omega
    cases hwin : f.window with
    | nil => rw [hwin] at hw; simp at hw; omega
    | cons x tl => simp

/-- C14. A filter with `n > 0` taps that has been fed at least `n` readings, the last one
included, returns from that last `filter` call the arithmetic mean of the last `n` readings,
and `getOutput()` right afterwards returns the same value. The 2-tap filter that
`VelMathFactory::create` puts into a `VelMath`, fed 4 and then 6, returns 5 on the second
call. -/
theorem averageFilter_mean (n : Nat) (rs : List ℚ) (r : ℚ) (ticksPerRev : ℚ) (now : Nat)
    (hn : 0 < n) (hlen : n ≤ rs.length + 1) :
    (((AverageFilter.init n).feed rs).filter r).1
      = ((rs ++ [r]).drop (rs.length + 1 - n)).sum / (n : ℚ) ∧
    (((AverageFilter.init n).feed rs).filter r).2.getOutput
      = (((AverageFilter.init n).feed rs).filter r).1 ∧
    (VelMathFactory.create ticksPerRev now).taps = 2 ∧
    ((((VelMathFactory.create ticksPerRev now).filter.filter 4).2).filter 6).1 = 5 := by
  have h0len : (AverageFilter.init n).data.length = n := by simp [AverageFilter.init]
  have h0idx : (AverageFilter.init n).index < n := by simpa [AverageFilter.init] using hn
  obtain ⟨k1, k2, k3⟩ := AverageFilter.feed_window rs (AverageFilter.init n) h0len h0idx
  obtain ⟨_, _, h3, h4, h5⟩ := ((AverageFilter.init n).feed rs).filter_window r k1 k2
  have hwin : (((AverageFilter.init n).feed rs).filter r).2.window
      = (rs ++ [r]).drop (rs.length + 1 - n) := by
    have hall := AverageFilter.feed_window (rs ++ [r]) (AverageFilter.init n) h0len h0idx
    have hfeed : (AverageFilter.init n).feed (rs ++ [r])
        = (((AverageFilter.init n).feed rs).filter r).2 := by
      simp [AverageFilter.feed, List.foldl_append]
    rw [hfeed] at hall
    rw [hall.2.2]
    have hz : (AverageFilter.init n).window = List.replicate n 0 := by
      simp [AverageFilter.window, AverageFilter.init]
    rw [hz, List.drop_append_eq_append_drop]
    have hd : List.drop (rs ++ [r]).length (List.replicate n (0 : ℚ)) = [] :=
      List.drop_eq_nil_of_le (by simp; omega)
    rw [hd]
    simp
  refine ⟨?_, h5, rfl, ?_⟩
  · rw [h4, hwin]
  · simp [VelMathFactory.create, AverageFilter.init, AverageFilter.filter]
    norm_num

/-- C14, at a concrete filter: three taps fed 3, 9, 1 and then 5 return the mean of 9, 1
and 5. -/
theorem averageFilter_mean_witness :
    (0 < 3 ∧ 3 ≤ [(3 : ℚ), 9, 1].length + 1) ∧
    (((AverageFilter.init 3).feed [3, 9, 1]).filter 5).1
      = (([(3 : ℚ), 9, 1] ++ [5]).drop ([(3 : ℚ), 9, 1].length + 1 - 3)).sum / ((3 : Nat) : ℚ) ∧
    (([(3 : ℚ), 9, 1] ++ [5]).drop ([(3 : ℚ), 9, 1].length + 1 - 3)).sum / ((3 : Nat) : ℚ) = 5 :=
  ⟨by decide, (averageFilter_mean 3 [3, 9, 1] 5 360 0 (by decide) (by decide)).1,
   by norm_num⟩

/-- A configuration call other than the three-sensor `withSensors` leaves the middle sensor as
it is. -/
theorem run_preserves_middleSensor (c : Call) (b : ChassisControllerBuilder)
    (hc : c.isWithSensors3 = false) : (c.run b).builder.middleSensor = b.middleSensor := by
  cases c <;> simp_all [Call.run, Call.isWithSensors3, Outcome.pure,
    ChassisControllerBuilder.withMotors, ChassisControllerBuilder.withMotors4,
    ChassisControllerBuilder.withSensors,
    ChassisControllerBuilder.withGains, ChassisControllerBuilder.withGains3,
    ChassisControllerBuilder.withDerivativeFilters, ChassisControllerBuilder.withTimeUtilFactory,
    ChassisControllerBuilder.withOdometry, ChassisControllerBuilder.withOdometryCustom,
    ChassisControllerBuilder.withGearset, ChassisControllerBuilder.withDimensions,
    ChassisControllerBuilder.withMaxVelocity, ChassisControllerBuilder.withMaxVoltage,
    ChassisControllerBuilder.withLogger]
  all_goals (repeat split) <;> simp_all

/-- A sequence of configuration calls without the three-sensor `withSensors` leaves the middle
sensor as it is. -/
theorem runCalls_preserves_middleSensor (calls : List Call) (b : ChassisControllerBuilder)
    (hc : ∀ c ∈ calls, c.isWithSensors3 = false) :
    (runCalls b calls).middleSensor = b.middleSensor := by
  induction calls generalizing b with
  | nil => rfl
  | cons c cs ih =>
    rw [runCalls_cons, ih (c.run b).builder (fun d hd => hc d (List.mem_cons_of_mem c hd)),
      run_preserves_middleSensor c b (hc c (List.mem_cons_self c cs))]

/-- C21, as stated, fails: after a three-sensor `withSensors` with a middle sensor, a later
three-sensor `withSensors` with a null middle pointer removes it, and `build()` on the
skid-steer builder with odometry makes a two-sensor model and the two-sensor estimator. -/
theorem later_withSensors_removes_middle :
    (runCalls sample [.withMotors ⟨1⟩ ⟨2⟩, .withOdometry 0 0 0,
        .withSensors3 (some (.external 1)) (some (.external 2)) (some (.external 3))]
      ).middleSensor = some (.external 3) ∧
    (runCalls sample [.withMotors ⟨1⟩ ⟨2⟩, .withOdometry 0 0 0,
        .withSensors3 (some (.external 1)) (some (.external 2)) (some (.external 3)),
        .withSensors3 (some (.external 1)) (some (.external 2)) none]
      ).middleSensor = none ∧
    ∃ c o, (runCalls sample [.withMotors ⟨1⟩ ⟨2⟩, .withOdometry 0 0 0,
        .withSensors3 (some (.external 1)) (some (.external 2)) (some (.external 3)),
        .withSensors3 (some (.external 1)) (some (.external 2)) none]
      ).build.result = Except.ok c ∧
      c.model = ChassisModel.skidSteer (SkidSteerModel.skidSteerModel (some ⟨1⟩) (some ⟨2⟩)
        (some (.external 1)) (some (.external 2)) 200 12000) ∧
      c.odometry = some o ∧
      ∃ t m sc w l, o = Odometry.odometry t m sc w l :=
  ⟨by decide, by decide, _, _, rfl, by decide, rfl, _, _, _, _, _, rfl⟩

/-- C21, amended. After a three-sensor `withSensors` call with the middle sensor `m`, every
sequence of later calls that contains no further three-sensor `withSensors` call leaves the
middle sensor `m` in place, two-sensor `withSensors` and `withMotors` calls included; a
further three-sensor call puts its own middle argument in its place. On such a builder, a
successful skid-steer `build()` constructs a `ThreeEncoderSkidSteerModel` with the current
left and right sensors and the middle sensor `m`; if odometry was requested and no custom
estimator is held it constructs a `ThreeEncoderOdometry`; and after a later two-sensor
`withSensors(l2, r2)` that is the last `withSensors` call, the left and right sensors are
`l2` and `r2`. -/
theorem middle_sensor_persists (b0 : ChassisControllerBuilder) (pre post : List Call)
    (l r : SensorPtr) (m : ContinuousRotarySensor)
    (hpost : ∀ c ∈ post, c.isWithSensors3 = false) :
    (runCalls b0 (pre ++ Call.withSensors3 l r (some m) :: post)).middleSensor = some m ∧
    (∀ (b : ChassisControllerBuilder) (l1 r1 m1 : SensorPtr),
      (b.withSensors3 l1 r1 m1).middleSensor = m1) ∧
    ((runCalls b0 (pre ++ Call.withSensors3 l r (some m) :: post)).hasMotors = true →
     (runCalls b0 (pre ++ Call.withSensors3 l r (some m) :: post)).isSkidSteer = true →
      ∃ c md, (runCalls b0 (pre ++ Call.withSensors3 l r (some m) :: post)).build.result
          = Except.ok c ∧
        c.model = ChassisModel.skidSteer md ∧ md.isThreeEncoder = true ∧
        md.middleEnc = some m ∧
        md.leftEnc = (runCalls b0 (pre ++ Call.withSensors3 l r (some m) :: post)).leftSensor ∧
        md.rightEnc = (runCalls b0 (pre ++ Call.withSensors3 l r (some m) :: post)).rightSensor ∧
        ((runCalls b0 (pre ++ Call.withSensors3 l r (some m) :: post)).hasOdom = true →
         (runCalls b0 (pre ++ Call.withSensors3 l r (some m) :: post)).odometry = none →
          ∃ t sc w lg, c.odometry = some (Odometry.threeEncoderOdometry t md sc w lg))) ∧
    (∀ (post1 post2 : List Call) (l2 r2 : SensorPtr),
      post = post1 ++ Call.withSensors l2 r2 :: post2 →
      (∀ c ∈ post2, c.isWithSensors = false) →
      (runCalls b0 (pre ++ Call.withSensors3 l r (some m) :: post)).leftSensor = l2 ∧
      (runCalls b0 (pre ++ Call.withSensors3 l r (some m) :: post)).rightSensor = r2) := by
  have hmid : (runCalls b0 (pre ++ Call.withSensors3 l r (some m) :: post)).middleSensor
      = some m := by
    rw [runCalls_append, runCalls_cons, runCalls_preserves_middleSensor post _ hpost]
    simp [Call.run, Outcome.pure, ChassisControllerBuilder.withSensors3]
  refine ⟨hmid, fun b l1 r1 m1 => rfl, fun hm hs => ?_, fun post1 post2 l2 r2 hp hc2 => ?_⟩
  · generalize runCalls b0 (pre ++ Call.withSensors3 l r (some m) :: post) = b at hmid hm hs ⊢
    cases ho : b.hasOdom <;> cases hg : b.hasGains <;> cases hod : b.odometry <;>
      simp [build, buildOCCPID, buildOCCI, buildCCPID, buildCCI, hm, hs, ho, hg, hod, hmid,
        makeSkidSteerModel, defaultOdometry, ChassisController.model,
        ChassisController.odometry, SkidSteerModel.isThreeEncoder, SkidSteerModel.middleEnc,
        SkidSteerModel.leftEnc, SkidSteerModel.rightEnc]
  · subst hp
    have hre : pre ++ Call.withSensors3 l r (some m) :: (post1 ++ Call.withSensors l2 r2 :: post2)
        = (pre ++ Call.withSensors3 l r (some m) :: post1) ++ Call.withSensors l2 r2 :: post2 := by
      simp
    rw [hre, runCalls_append, runCalls_cons]
    obtain ⟨k1, k2⟩ := runCalls_sensors_set post2
      ((Call.withSensors l2 r2).run
        (runCalls b0 (pre ++ Call.withSensors3 l r (some m) :: post1))).builder
      (by simp [Call.run, Outcome.pure, ChassisControllerBuilder.withSensors]) hc2
    rw [k1, k2]
    simp [Call.run, Outcome.pure, ChassisControllerBuilder.withSensors]

/-- C21, amended, at a concrete builder: three sensors, then two new sensors, then two
motors and odometry; the model has the new left and right sensors and the old middle one. -/
theorem middle_sensor_persists_witness :
    (∀ c ∈ [Call.withSensors (some (.external 4)) (some (.external 5)),
        Call.withMotors ⟨1⟩ ⟨2⟩, Call.withOdometry 0 0 0], c.isWithSensors3 = false) ∧
    ∃ c md, (runCalls sample ([] ++ Call.withSensors3 (some (.external 1))
        (some (.external 2)) (some (.external 3)) ::
        [.withSensors (some (.external 4)) (some (.external 5)),
         .withMotors ⟨1⟩ ⟨2⟩, .withOdometry 0 0 0])).build.result = Except.ok c ∧
      c.model = ChassisModel.skidSteer md ∧ md.isThreeEncoder = true ∧
      md.middleEnc = some (.external 3) ∧
      md.leftEnc = some (.external 4) ∧ md.rightEnc = some (.external 5) :=
  ⟨by decide,
   match (middle_sensor_persists sample []
      [.withSensors (some (.external 4)) (some (.external 5)),
       .withMotors ⟨1⟩ ⟨2⟩, .withOdometry 0 0 0]
      (some (.external 1)) (some (.external 2)) (.external 3) (by decide)).2.2.1
      (by decide) (by decide) with
   | ⟨c, md, h1, h2, h3, h4, h5, h6, _⟩ => ⟨c, md, h1, h2, h3, h4, h5, h6⟩⟩

/-- C22. With `c` the current sample (the digital reading is pressed when it is not zero, and
the sample is its negation on an inverted button) and `p` the stored sample: `edge()` returns
true iff `c` differs from `p`, `risingEdge()` iff `c` is pressed and `p` is not,
`fallingEdge()` iff `c` is not pressed and `p` is; each of the three and `isPressed()` leave
`c` as the stored sample and change nothing else; `isPressed()` returns `c`; the stored
sample of a new button is "not pressed". -/
theorem controllerButton_edges (b : ControllerButton) (raw : Int) :
    (b.currentlyPressed raw = true ↔ (if b.inverted = true then raw = 0 else raw ≠ 0)) ∧
    ((b.edge raw).1 = true ↔ b.currentlyPressed raw ≠ b.wasPressedLast) ∧
    ((b.risingEdge raw).1 = true ↔
      (b.currentlyPressed raw = true ∧ b.wasPressedLast = false)) ∧
    ((b.fallingEdge raw).1 = true ↔
      (b.currentlyPressed raw = false ∧ b.wasPressedLast = true)) ∧
    (b.isPressed raw).1 = b.currentlyPressed raw ∧
    (b.edge raw).2 = { b with wasPressedLast := b.currentlyPressed raw } ∧
    (b.risingEdge raw).2 = { b with wasPressedLast := b.currentlyPressed raw } ∧
    (b.fallingEdge raw).2 = { b with wasPressedLast := b.currentlyPressed raw } ∧
    (b.isPressed raw).2 = { b with wasPressedLast := b.currentlyPressed raw } ∧
    (∀ icontroller ibtn iinverted,
      (ControllerButton.init icontroller ibtn iinverted).wasPressedLast = false) := by
  refine ⟨?_, ?_, ?_, ?_, rfl, rfl, rfl, rfl, rfl, fun _ _ _ => rfl⟩
  · cases hi : b.inverted <;> simp [ControllerButton.currentlyPressed, hi]
  · cases hc : b.currentlyPressed raw <;> cases hp : b.wasPressedLast <;>
      simp [ControllerButton.edge, hc, hp]
  · cases hc : b.currentlyPressed raw <;> cases hp : b.wasPressedLast <;>
      simp [ControllerButton.risingEdge, ControllerButton.edge, hc, hp]
  · cases hc : b.currentlyPressed raw <;> cases hp : b.wasPressedLast <;>
      simp [ControllerButton.fallingEdge, ControllerButton.edge, hc, hp]

/-- The timer after a sequence of calls followed by one more call. -/
theorem runSteps_append (t : Timer) (xs ys : List TimerStep) :
    t.runSteps (xs ++ ys) = (t.runSteps xs).runSteps ys := by
  simp [Timer.runSteps, List.foldl_append]

/-- A call other than `placeHardMark` and `clearHardMark` leaves the hard mark and the
described hard mark as they are. -/
theorem step_keeps_hardMark (t : Timer) (s : TimerStep) (m : Option Nat) (rest : List TimerStep)
    (h1 : s.call ≠ TimerCall.placeHardMark) (h2 : s.call ≠ TimerCall.clearHardMark) :
    (t.step s).2.hardMark = t.hardMark ∧ specHardMark m (s :: rest) = specHardMark m rest := by
  obtain ⟨call, now1, now2⟩ := s
  cases call <;> simp [Timer.step, Timer.getDt, Timer.placeMark, Timer.repeat, specHardMark]
    at h1 h2 ⊢
  repeat' split
  all_goals rfl

/-- The member `hardMark` follows the described hard mark: when the described mark `m` is
never the clock value zero and `hardMark` holds it (zero for no mark), the same is true after
any calls whose `placeHardMark()` never reads the clock at zero. -/
theorem runSteps_hardMark (steps : List TimerStep) (t : Timer) (m : Option Nat)
    (hrel : t.hardMark = m.getD 0) (hm : m ≠ some 0)
    (hnz : ∀ s ∈ steps, s.call = TimerCall.placeHardMark → s.now2 ≠ 0) :
    (t.runSteps steps).hardMark = (specHardMark m steps).getD 0 ∧
    specHardMark m steps ≠ some 0 := by
  induction steps generalizing t m with
  | nil => exact ⟨hrel, hm⟩
  | cons s rest ih =>
    have hrest : ∀ d ∈ rest, d.call = TimerCall.placeHardMark → d.now2 ≠ 0 :=
      fun d hd => hnz d (List.mem_cons_of_mem s hd)
    have hs := hnz s (List.mem_cons_self s rest)
    rw [runSteps_cons]
    by_cases hp : s.call = TimerCall.placeHardMark
    · have hnow : s.now2 ≠ 0 := hs hp
      obtain ⟨call, now1, now2⟩ := s
      simp only at hp hnow
      subst hp
      cases m with
      | none =>
        have h0 : t.hardMark = 0 := by simpa using hrel
        simpa [specHardMark] using ih (t.step ⟨.placeHardMark, now1, now2⟩).2 (some now2)
          (by simp [Timer.step, Timer.placeHardMark, h0]) (by simpa using hnow) hrest
      | some v =>
        have hv : t.hardMark = v := by simpa using hrel
        have hv0 : v ≠ 0 := fun h => hm (by rw [h])
        simpa [specHardMark] using ih (t.step ⟨.placeHardMark, now1, now2⟩).2 (some v)
          (by simp [Timer.step, Timer.placeHardMark, hv, hv0]) hm hrest
    · by_cases hcl : s.call = TimerCall.clearHardMark
      · obtain ⟨call, now1, now2⟩ := s
        simp only at hcl
        subst hcl
        simpa [specHardMark] using ih (t.step ⟨.clearHardMark, now1, now2⟩).2 none
          (by simp [Timer.step, Timer.clearHardMark]) (by simp) hrest
      · obtain ⟨k1, k2⟩ := step_keeps_hardMark t s m rest hp hcl
        rw [k2]
        exact ih (t.step s).2 m (by rw [k1]; exact hrel) hm hrest

/-- C23. Take a timer constructed at any clock value and any sequence of calls on it in which
`placeHardMark()` never reads the clock at zero. If no `placeHardMark()` was called since
construction or since the last `clearHardMark()`, `getDtFromHardMark()` returns 0 and
`clearHardMark()` returns 0. Otherwise, with `m` the clock value of the first
`placeHardMark()` since then, `getDtFromHardMark()` at the clock value `now` returns
`(now - m) mod 2^32`, which is `now - m` for 32-bit values `m ≤ now` and the time passed when
the counter wrapped in between; a further `placeHardMark()` leaves the mark at `m`; and
`clearHardMark()` returns `m` and leaves no mark. -/
theorem hardMark_elapsed (tc : Nat) (steps : List TimerStep)
    (hnz : ∀ s ∈ steps, s.call = TimerCall.placeHardMark → s.now2 ≠ 0) :
    (specHardMark none steps = none →
      (∀ now, ((Timer.init tc).runSteps steps).getDtFromHardMark now = 0) ∧
      ((Timer.init tc).runSteps steps).clearHardMark.1 = 0) ∧
    (∀ m, specHardMark none steps = some m →
      (∀ now, ((Timer.init tc).runSteps steps).getDtFromHardMark now = sub32 now m) ∧
      (∀ now, m ≤ now → now < 4294967296 →
        ((Timer.init tc).runSteps steps).getDtFromHardMark now = now - m) ∧
      (∀ T0 T1 : Nat, m = T0 % 4294967296 → T0 ≤ T1 → T1 - T0 < 4294967296 →
        ((Timer.init tc).runSteps steps).getDtFromHardMark (T1 % 4294967296) = T1 - T0) ∧
      (∀ now, (((Timer.init tc).runSteps steps).placeHardMark now).hardMark = m) ∧
      ((Timer.init tc).runSteps steps).clearHardMark.1 = m) ∧
    ((Timer.init tc).runSteps steps).clearHardMark.2.hardMark = 0 ∧
    (∀ now, ((Timer.init tc).runSteps steps).clearHardMark.2.getDtFromHardMark now = 0) := by
  obtain ⟨hmark, hne⟩ := runSteps_hardMark steps (Timer.init tc) none rfl (by simp) hnz
  refine ⟨fun hnone => ?_, fun m hsome => ?_, rfl, fun now => ?_⟩
  · rw [hnone] at hmark
    have h0 : ((Timer.init tc).runSteps steps).hardMark = 0 := by simpa using hmark
    exact ⟨fun now => by simp [Timer.getDtFromHardMark, h0],
      by simp [Timer.clearHardMark, h0]⟩
  · rw [hsome] at hmark hne
    have hv : ((Timer.init tc).runSteps steps).hardMark = m := by simpa using hmark
    have hm0 : m ≠ 0 := fun h => hne (by rw [h])
    have hdt : ∀ now, ((Timer.init tc).runSteps steps).getDtFromHardMark now = sub32 now m :=
      fun now => by simp [Timer.getDtFromHardMark, hv, hm0]
    refine ⟨hdt, fun now hle hlt => ?_, fun T0 T1 hT hle hlt => ?_, fun now => ?_, ?_⟩
    · rw [hdt, sub32_of_le now m hle hlt]
    · rw [hdt, hT, sub32_wrapped T0 T1 hle hlt]
    · simp [Timer.placeHardMark, hv, hm0]
    · simp [Timer.clearHardMark, hv]
  · simp [Timer.getDtFromHardMark, Timer.clearHardMark]

/-- C23, at a concrete run: hard marks placed at 10 and again at 20, the mark cleared, and a
mark placed at 30; the described mark is 30 and `getDtFromHardMark()` at 50 returns 20. After
the first two calls alone the mark is 10 and `getDtFromHardMark()` at 25 returns 15. -/
theorem hardMark_elapsed_witness :
    specHardMark none [⟨.placeHardMark, 10, 10⟩, ⟨.placeHardMark, 20, 20⟩,
      ⟨.clearHardMark, 20, 20⟩, ⟨.placeHardMark, 30, 30⟩] = some 30 ∧
    ((Timer.init 3).runSteps [⟨.placeHardMark, 10, 10⟩, ⟨.placeHardMark, 20, 20⟩,
      ⟨.clearHardMark, 20, 20⟩, ⟨.placeHardMark, 30, 30⟩]).getDtFromHardMark 50 = 50 - 30 ∧
    specHardMark none [⟨.placeHardMark, 10, 10⟩, ⟨.placeHardMark, 20, 20⟩] = some 10 ∧
    ((Timer.init 3).runSteps [⟨.placeHardMark, 10, 10⟩,
      ⟨.placeHardMark, 20, 20⟩]).getDtFromHardMark 25 = 25 - 10 :=
  ⟨by decide,
   ((hardMark_elapsed 3 [⟨.placeHardMark, 10, 10⟩, ⟨.placeHardMark, 20, 20⟩,
      ⟨.clearHardMark, 20, 20⟩, ⟨.placeHardMark, 30, 30⟩] (by decide)).2.1 30 (by decide)).2.1
      50 (by decide) (by decide),
   by decide,
   ((hardMark_elapsed 3 [⟨.placeHardMark, 10, 10⟩, ⟨.placeHardMark, 20, 20⟩]
      (by decide)).2.1 10 (by decide)).2.1 25 (by decide) (by decide)⟩

end okapi
